import Mathlib

/-!
Verification development for the translation dispatch engine of the
text-processing-tool repository.

The Python modules `src/services/translation_service.py` and
`src/config/translation_config.py` are shallowly embedded here:

* Python dictionaries are association lists `List (String × PyVal)`
  (insertion-ordered, as CPython dicts are);
* the HTTP transport (`requests.Session.post`) is a parameter
  `Transport := Nat → PostReq → PostResult` giving the outcome of the n-th
  POST issued by a request; the list of issued `PostReq`s is threaded
  through the embedding, so the number and contents of network calls are
  observable;
* Python exceptions are values of `PyExn`; code that may raise returns
  `Except PyExn α`, and `try/except` blocks are explicit matches;
* `requests.exceptions.Timeout` is `PyExn.timeoutE`, every other exception
  is `PyExn.otherE msg` (the exact Python `str(e)` text of secondary
  exceptions such as `KeyError` is abstracted to a short tag, since no
  control flow depends on it);
* response bodies (`response.json()`) are an inductive `Json` value;
  `none` for the body models a body on which `response.json()` raises;
* the baseline environment-variable configuration is a parameter `Env`;
  the per-session override store `session["user_translation_configs"]`
  is an association list `Session`.

Wall-clock behaviour (`time.sleep(retry_delay)`, request timeouts) is not
modelled beyond the numeric constants taken from the source; retry counts
and call counts are modelled exactly.
-/

namespace TransSpec

/-- JSON values, for request payloads and response bodies. -/
inductive Json where
  | jnull
  | jstr (s : String)
  | jnum (n : Int)
  | jarr (xs : List Json)
  | jobj (fs : List (String × Json))

/-- Lookup in a JSON object's field list (first occurrence). -/
def jLookup : List (String × Json) → String → Option Json
  | [], _ => none
  | (k, v) :: rest, key => if k == key then some v else jLookup rest key

/-- Values stored in the Python dictionaries of the translation service:
strings, booleans, integers (chunk counts), `None`, and — on the Microsoft
adapter's malformed-body success path — an arbitrary deserialized JSON value
(`vjson` is only ever applied to numbers, arrays and objects; strings and
`null` use `vstr`/`vnone`). -/
inductive PyVal where
  | vstr (s : String)
  | vbool (b : Bool)
  | vnat (n : Nat)
  | vnone
  | vjson (j : Json)

/-- A Python dict with string keys, as an insertion-ordered association list. -/
abbrev Dict := List (String × PyVal)

/-- `d.get(k)` — `none` models Python's `None` default for a missing key. -/
def alGet {α : Type} : List (String × α) → String → Option α
  | [], _ => none
  | (k, v) :: rest, key => if k == key then some v else alGet rest key

/-- `d[k] = v` — replaces the value at an existing key in place, else appends,
exactly the CPython insertion-order behaviour. -/
def alSet {α : Type} : List (String × α) → String → α → List (String × α)
  | [], key, v => [(key, v)]
  | (k, w) :: rest, key, v =>
    if k == key then (key, v) :: rest else (k, w) :: alSet rest key v

/-- `d.pop(k, None)` — removes the binding for `k` if present. -/
def alRemove {α : Type} (l : List (String × α)) (k : String) : List (String × α) :=
  l.filter (fun kv => kv.1 != k)

/-- Python truthiness of a `PyVal` (`''`, `False`, `0` and `None` are falsy). -/
def truthy : PyVal → Bool
  | .vstr s => s ≠ ""
  | .vbool b => b
  | .vnat n => n ≠ 0
  | .vnone => false
  | .vjson (.jnum n) => n ≠ 0
  | .vjson (.jarr xs) => !xs.isEmpty
  | .vjson (.jobj fs) => !fs.isEmpty
  | .vjson .jnull => false
  | .vjson (.jstr s) => s ≠ ""

/-- Truthiness of the result of `d.get(k)` (a missing key yields `None`, falsy). -/
def truthyO : Option PyVal → Bool
  | none => false
  | some v => truthy v

/-- `d.get(k, dflt)` where the caller uses the result as a string.  All values
reachable at the keys this is applied to (`api_key`, `region`, `api_url`) are
strings in the source configuration dictionaries. -/
def getStrD (d : Dict) (k : String) (dflt : String) : String :=
  match alGet d k with
  | some (PyVal.vstr s) => s
  | _ => dflt

/-- Characters stripped by Python's `str.strip()` (the ASCII whitespace set). -/
def isPyWs (c : Char) : Bool :=
  c = ' ' ∨ c = '\t' ∨ c = '\n' ∨ c = '\r' ∨ c = '\x0b' ∨ c = '\x0c'

/-- `str.strip()` on a list of characters. -/
def pyStripL (l : List Char) : List Char :=
  ((l.dropWhile isPyWs).reverse.dropWhile isPyWs).reverse

/-- `str.strip()`. -/
def pyStrip (s : String) : String := String.mk (pyStripL s.toList)

/-- `str.lower()`.  Lean's `Char.toLower` lowers the ASCII range; Python's
`str.lower` also folds non-ASCII cased letters, but every keyword table and
input this development touches is ASCII or CJK (caseless), where the two
coincide. -/
def pyLower (s : String) : String := String.mk (s.toList.map Char.toLower)

/-- Python's `pat in s` substring test. -/
def strContains (s pat : String) : Bool := decide (List.IsInfix pat.toList s.toList)

/-- A Python exception crossing a function boundary: `requests.exceptions.Timeout`
versus everything else. -/
inductive PyExn where
  | timeoutE
  | otherE (msg : String)
deriving DecidableEq, Repr

/-- `str(e)` for an exception reaching a generic `except Exception` handler;
the precise Python text is abstracted to the carried message. -/
def pyExnMsg : PyExn → String
  | .timeoutE => "Timeout"
  | .otherE m => m

/-- One POST request issued through `self.session.post`: target URL, JSON
payload and timeout in seconds.  Headers only carry credentials and a random
trace id and are not inspected by any claim, so they are not recorded. -/
structure PostReq where
  url : String
  payload : Json
  timeout : Nat

/-- Outcome of one POST: transport timeout, other transport failure, or an
HTTP response with status code, parsed body (`none` when `response.json()`
would raise) and raw text. -/
inductive PostResult where
  | timeout
  | netErr (msg : String)
  | resp (status : Nat) (body : Option Json) (rawText : String)

/-- The transport: outcome of the n-th POST of the current request. -/
abbrev Transport := Nat → PostReq → PostResult

/-! ## Configuration (`src/config/translation_config.py`) -/

/-- The environment variables read at module load. -/
structure Env where
  deepseekKey : String
  openaiKey : String
  microsoftKey : String
  microsoftRegion : String
deriving DecidableEq, Repr

def DEFAULT_TRANSLATION_SERVICE : String := "deepseek"

/-- `TranslationConfig.AVAILABLE_SERVICES`: the immutable baseline provider
catalog, with `enabled = bool(API_KEY)`. -/
def AVAILABLE_SERVICES (e : Env) : List (String × Dict) :=
  [("deepseek",
    [("name", .vstr "DeepSeek"),
     ("api_key", .vstr e.deepseekKey),
     ("api_url", .vstr "https://api.deepseek.com/v1/chat/completions"),
     ("model", .vstr "deepseek-chat"),
     ("enabled", .vbool (e.deepseekKey != ""))]),
   ("openai",
    [("name", .vstr "OpenAI ChatGPT"),
     ("api_key", .vstr e.openaiKey),
     ("api_url", .vstr "https://api.openai.com/v1/chat/completions"),
     ("model", .vstr "gpt-3.5-turbo"),
     ("enabled", .vbool (e.openaiKey != ""))]),
   ("microsoft",
    [("name", .vstr "Microsoft Translator"),
     ("api_key", .vstr e.microsoftKey),
     ("api_url", .vstr "https://api.cognitive.microsofttranslator.com"),
     ("region", .vstr e.microsoftRegion),
     ("model", .vstr "api-version-3.0"),
     ("enabled", .vbool (e.microsoftKey != ""))])]

/-- The per-session override store `session["user_translation_configs"]`:
service name → user config dict.  The initial absent key is the empty list. -/
abbrev Session := List (String × Dict)

/-- `TranslationConfig.get_user_config` (a missing entry is the empty dict). -/
def get_user_config (sess : Session) (svc : String) : Dict :=
  (alGet sess svc).getD []

/-- `TranslationConfig.set_user_config`: stores
`{"api_key": api_key, "enabled": bool(api_key.strip())}` plus `"model"` when
the `model` argument is truthy (not `None` and non-empty). -/
def set_user_config (sess : Session) (svc api_key : String) (model : Option String) : Session :=
  let user_config : Dict :=
    [("api_key", .vstr api_key), ("enabled", .vbool (pyStrip api_key != ""))] ++
    (match model with
     | some m => if m ≠ "" then [("model", .vstr m)] else []
     | none => [])
  alSet sess svc user_config

/-- `TranslationConfig.clear_user_config`. -/
def clear_user_config (sess : Session) (svc : String) : Session :=
  alRemove sess svc

/-- `TranslationConfig.get_service_config`: if a user config exists and its
`api_key` is truthy, clone the baseline, overwrite `api_key` (and `model` when
truthy) and recompute `enabled` from the override; else the baseline
unmodified (the empty dict for an unknown service). -/
def get_service_config (e : Env) (sess : Session) (svc : String) : Dict :=
  let uc := get_user_config sess svc
  if uc.isEmpty = false ∧ truthyO (alGet uc "api_key") then
    let base0 := (alGet (AVAILABLE_SERVICES e) svc).getD []
    let base1 := match alGet uc "api_key" with
      | some v => if truthy v then alSet base0 "api_key" v else base0
      | none => base0
    let base2 := match alGet uc "model" with
      | some v => if truthy v then alSet base1 "model" v else base1
      | none => base1
    alSet base2 "enabled" ((alGet uc "enabled").getD (.vbool false))
  else (alGet (AVAILABLE_SERVICES e) svc).getD []

/-- `TranslationConfig.is_service_available`: truthiness of
`get_service_config(...).get("enabled", False)`. -/
def is_service_available (e : Env) (sess : Session) (svc : String) : Bool :=
  truthyO (alGet (get_service_config e sess svc) "enabled")

/-! ## The splitter (`TranslationService._split_text`) -/

def max_chunk_size : Nat := 3000
def timeout_short : Nat := 60
def timeout_long : Nat := 180
def max_retries : Nat := 3
def retry_delay : Nat := 2

/-- The sentence-terminal characters of the pattern `([。！？.!?]+)`. -/
def isSentDelim (c : Char) : Bool :=
  c = '。' ∨ c = '！' ∨ c = '？' ∨ c = '.' ∨ c = '!' ∨ c = '?'

/-- One left-to-right pass producing the `(sentence, punctuation-run)` pairs
that the loop of `_split_text` reads off `re.split(r'([。！？.!?]+)', text)`:
`re.split` with this capturing group returns
`[text₀, delim₀, text₁, delim₁, …, textₙ]` where each `delimᵢ` is a maximal
run of delimiter characters, and the loop pairs each even-indexed element
with its successor (the final `textₙ` with `""`).  `sAcc`/`dAcc` are the
reversed sentence and delimiter-run accumulators; a pair is emitted when a
delimiter run ends. -/
def pairsAux : List Char → List Char → List Char → List (List Char × List Char)
  | [], sAcc, dAcc =>
    if dAcc.isEmpty then [(sAcc.reverse, [])]
    else [(sAcc.reverse, dAcc.reverse), ([], [])]
  | c :: cs, sAcc, dAcc =>
    if isSentDelim c then pairsAux cs sAcc (c :: dAcc)
    else if dAcc.isEmpty then pairsAux cs (c :: sAcc) dAcc
    else (sAcc.reverse, dAcc.reverse) :: pairsAux cs [c] []

/-- The `(sentence, punctuation)` pairs traversed by the accumulation loop of
`_split_text`. -/
def sentencePairs (cs : List Char) : List (List Char × List Char) :=
  pairsAux cs [] []

/-- The sentence-accumulation loop of `_split_text`: flush the buffer (as
`current_chunk.strip()`) whenever appending the next full sentence would
exceed `max_chunk_size` and the buffer is non-empty.  Returns the flushed
chunks and the final buffer. -/
def buildChunksLoop :
    List (List Char × List Char) → List Char → List (List Char) →
    List (List Char) × List Char
  | [], current, acc => (acc, current)
  | (s, p) :: rest, current, acc =>
    let full := s ++ p
    if current.length + full.length > max_chunk_size ∧ current ≠ [] then
      buildChunksLoop rest full (acc ++ [pyStripL current])
    else
      buildChunksLoop rest (current ++ full) acc

/-- The sentence-based chunk list of `_split_text` (before the 10-chunk cap
check): run the accumulation loop, then append the stripped final buffer when
it is non-blank. -/
def sentenceChunks (cs : List Char) : List (List Char) :=
  let r := buildChunksLoop (sentencePairs cs) [] []
  if pyStripL r.2 ≠ [] then r.1 ++ [pyStripL r.2] else r.1

/-- `for i in range(0, len(text), max_chunk_size): text[i:i + max_chunk_size]`:
the fixed character windows of the forced re-split. -/
def windows : List Char → List (List Char)
  | [] => []
  | c :: cs =>
    (c :: cs).take max_chunk_size :: windows ((c :: cs).drop max_chunk_size)
termination_by cs => cs.length
decreasing_by
  simp only [List.length_drop, List.length_cons, max_chunk_size]
  omega

/-- The forced character-window re-split: stripped windows, blank windows
dropped. -/
def forcedChunks (cs : List Char) : List (List Char) :=
  (windows cs).filterMap (fun w =>
    let t := pyStripL w
    if t ≠ [] then some t else none)

/-- `TranslationService._split_text`: texts of at most `max_chunk_size`
characters are returned whole; otherwise sentence-based accumulation, replaced
by the forced character-window split when it produced more than 10 chunks. -/
def splitText (s : String) : List String :=
  if s.length ≤ max_chunk_size then [s]
  else
    let cs := s.toList
    let chunks := sentenceChunks cs
    let chunks := if chunks.length > 10 then forcedChunks cs else chunks
    chunks.map String.mk

/-! ## The language hinter (`_extract_target_language_from_prompt`) -/

/-- The ordered `language_mappings` table (CPython dicts iterate in insertion
order). -/
def languageMappings : List (String × String) :=
  [("中文", "zh"), ("chinese", "zh"), ("china", "zh"),
   ("英文", "en"), ("english", "en"), ("英语", "en"),
   ("日文", "ja"), ("japanese", "ja"), ("日语", "ja"),
   ("韩文", "ko"), ("korean", "ko"), ("韩语", "ko"),
   ("法文", "fr"), ("french", "fr"), ("法语", "fr"),
   ("德文", "de"), ("german", "de"), ("德语", "de"),
   ("西班牙文", "es"), ("spanish", "es"), ("西班牙语", "es"),
   ("俄文", "ru"), ("russian", "ru"), ("俄语", "ru"),
   ("阿拉伯文", "ar"), ("arabic", "ar"), ("阿拉伯语", "ar")]

/-- `TranslationService._extract_target_language_from_prompt`: lower-case the
prompt, return the code of the first keyword (in table order) occurring in it,
defaulting to `"zh"`. -/
def extractTargetLanguageFromPrompt (prompt : String) : String :=
  let pl := pyLower prompt
  match languageMappings.find? (fun kv => strContains pl kv.1) with
  | some kv => kv.2
  | none => "zh"

/-! ## Result dictionaries -/

/-- The failed-result dictionary shared by every error path of the service:
`{'error': msg, 'translated_text': '', 'service_used': svc, 'prompt_used': p}`
(every error return in `translation_service.py` is a literal of exactly this
shape and key order). -/
def failDict (msg svc prompt : String) : Dict :=
  [("error", .vstr msg), ("translated_text", .vstr ""),
   ("service_used", .vstr svc), ("prompt_used", .vstr prompt)]

/-- The success dictionary of the chat-style adapters and of
`_translate_short_text`. -/
def successShortDict (tt svc prompt : String) : Dict :=
  [("translated_text", .vstr tt), ("service_used", .vstr svc),
   ("prompt_used", .vstr prompt), ("error", .vnone)]

/-- The success dictionary of `_translate_with_microsoft` (adds
`target_language`). -/
def msSuccessDict (tt svc prompt lang : String) : Dict :=
  [("translated_text", .vstr tt), ("service_used", .vstr svc),
   ("prompt_used", .vstr prompt), ("error", .vnone),
   ("target_language", .vstr lang)]

/-- The Microsoft success dictionary when `translations[0].get('text', '')`
produced a non-string value: the raw deserialized value is stored under
`translated_text` with `error = None`, exactly as the source's success
literal does (`.get` performs no type coercion). -/
def msSuccessDictV (tt : PyVal) (svc prompt lang : String) : Dict :=
  [("translated_text", tt), ("service_used", .vstr svc),
   ("prompt_used", .vstr prompt), ("error", .vnone),
   ("target_language", .vstr lang)]

/-- The success dictionary of `_translate_long_text` (adds
`chunks_translated`). -/
def successLongDict (tt svc prompt : String) (total : Nat) : Dict :=
  [("translated_text", .vstr tt), ("service_used", .vstr svc),
   ("prompt_used", .vstr prompt), ("error", .vnone),
   ("chunks_translated", .vnat total)]

def apiKeyMissingMsg : String :=
  "API key not configured or invalid. Please configure your API key in the translation settings."

/-- The masked placeholder rejected alongside an empty key. -/
def apiKeyPlaceholder : String := "••••••••••••••••"

/-! ## Provider adapters -/

/-- `config['k']` where the value must be a string (`KeyError` on a missing
key; the configuration dictionaries of the source hold strings at the keys
this is used on). -/
def dIndexStr (d : Dict) (k : String) : Except PyExn String :=
  match alGet d k with
  | some (PyVal.vstr s) => .ok s
  | some _ => .error (.otherE "TypeError")
  | none => .error (.otherE ("KeyError: " ++ k))

/-- The chat-completion payload of the DeepSeek/OpenAI adapters.
`temperature` is the constant `0.7` in the source; floats are represented by
their literal text. -/
def chatPayload (model full_prompt : String) (max_tokens : Nat) : Json :=
  .jobj [("model", .jstr model),
         ("messages", .jarr [.jobj [("role", .jstr "user"),
                                    ("content", .jstr full_prompt)]]),
         ("temperature", .jstr "0.7"),
         ("max_tokens", .jnum max_tokens)]

/-- `result['choices'][0]['message']['content'].strip()` on a parsed response
body; any shape mismatch raises (`KeyError`/`IndexError`/`TypeError` in
Python — the precise message is abstracted), as does `response.json()` on an
unparseable body (`body = none`). -/
def chatExtract (body : Option Json) : Except PyExn String :=
  match body with
  | none => .error (.otherE "JSONDecodeError")
  | some (.jobj fs) =>
    match jLookup fs "choices" with
    | some (.jarr (c0 :: _)) =>
      (match c0 with
       | .jobj cfs =>
         match jLookup cfs "message" with
         | some (.jobj mfs) =>
           (match jLookup mfs "content" with
            | some (.jstr s) => .ok (pyStrip s)
            | some _ => .error (.otherE "AttributeError")
            | none => .error (.otherE "KeyError"))
         | some _ => .error (.otherE "TypeError")
         | none => .error (.otherE "KeyError")
       | _ => .error (.otherE "TypeError"))
    | some (.jarr []) => .error (.otherE "IndexError")
    | some _ => .error (.otherE "TypeError")
    | none => .error (.otherE "KeyError")
  | some _ => .error (.otherE "TypeError")

/-- `response.json().get('error', {}).get('message', 'Unknown error')` under
the bare `except:` of the non-2xx branches: `some msg` when the chain yields
a string usable in a containment test, `none` when a step would raise
(unparseable body, non-dict data, non-dict `error` value).  A non-string
`message` value is also folded into `none`: in the chat adapters the `in`
test then raises, landing in the same `except:` branch, while the Microsoft
adapter would interpolate the value into its failure text — an abstraction
that changes only the wording of that one failure message, never the
failure/success shape of the result. -/
def parseErrMsg (body : Option Json) : Option String :=
  match body with
  | none => none
  | some (.jobj fs) =>
    match jLookup fs "error" with
    | none => some "Unknown error"
    | some (.jobj fs2) =>
      (match jLookup fs2 "message" with
       | none => some "Unknown error"
       | some (.jstr m) => some m
       | some _ => none)
    | some _ => none
  | some _ => none

/-- `TranslationService._translate_with_deepseek`.  Returns the result
dictionary (or a propagating exception) together with the updated list of
issued POSTs.  The debug-logging calls of the source are pure logging and not
modelled. -/
def translateWithDeepseek (e : Env) (sess : Session) (t : Transport)
    (log : List PostReq) (text prompt svc : String) (timeout : Nat) :
    Except PyExn Dict × List PostReq :=
  let config := get_service_config e sess svc
  let api_key := getStrD config "api_key" ""
  if api_key = "" ∨ api_key = apiKeyPlaceholder then
    (.ok (failDict apiKeyMissingMsg svc prompt), log)
  else
    let full_prompt := prompt ++ "\n\nText to translate:\n```" ++ text ++ "```"
    let max_tokens := min (max (text.length * 2) 2000) 8000
    match dIndexStr config "model", dIndexStr config "api_url" with
    | .ok model, .ok api_url =>
      let req : PostReq := ⟨api_url, chatPayload model full_prompt max_tokens, timeout⟩
      let r := t log.length req
      let log2 := log ++ [req]
      match r with
      | .timeout => (.error .timeoutE, log2)
      | .netErr m => (.error (.otherE m), log2)
      | .resp status body rawText =>
        if status = 200 then
          match chatExtract body with
          | .ok tt => (.ok (successShortDict tt svc prompt), log2)
          | .error ex => (.error ex, log2)
        else
          match parseErrMsg body with
          | some msg =>
            if strContains msg "Authentication Fails" then
              (.ok (failDict "API密钥无效或已过期。请检查您的DeepSeek API密钥是否正确，并确保有足够的余额。" svc prompt), log2)
            else (.ok (failDict ("DeepSeek API错误: " ++ msg) svc prompt), log2)
          | none =>
            (.ok (failDict ("DeepSeek API错误: " ++ toString status ++ " - " ++ rawText) svc prompt), log2)
    | .error ex, _ => (.error ex, log)
    | .ok _, .error ex => (.error ex, log)

/-- `TranslationService._translate_with_openai`: identical to the DeepSeek
adapter except that the source text is not wrapped in a backtick block, the
authentication pattern also matches `invalid_api_key`, and the error strings
name OpenAI. -/
def translateWithOpenai (e : Env) (sess : Session) (t : Transport)
    (log : List PostReq) (text prompt svc : String) (timeout : Nat) :
    Except PyExn Dict × List PostReq :=
  let config := get_service_config e sess svc
  let api_key := getStrD config "api_key" ""
  if api_key = "" ∨ api_key = apiKeyPlaceholder then
    (.ok (failDict apiKeyMissingMsg svc prompt), log)
  else
    let full_prompt := prompt ++ "\n\nText to translate:\n" ++ text
    let max_tokens := min (max (text.length * 2) 2000) 8000
    match dIndexStr config "model", dIndexStr config "api_url" with
    | .ok model, .ok api_url =>
      let req : PostReq := ⟨api_url, chatPayload model full_prompt max_tokens, timeout⟩
      let r := t log.length req
      let log2 := log ++ [req]
      match r with
      | .timeout => (.error .timeoutE, log2)
      | .netErr m => (.error (.otherE m), log2)
      | .resp status body rawText =>
        if status = 200 then
          match chatExtract body with
          | .ok tt => (.ok (successShortDict tt svc prompt), log2)
          | .error ex => (.error ex, log2)
        else
          match parseErrMsg body with
          | some msg =>
            if strContains msg "Authentication Fails" ∨ strContains msg "invalid_api_key" then
              (.ok (failDict "API密钥无效或已过期。请检查您的OpenAI API密钥是否正确，并确保有足够的余额。" svc prompt), log2)
            else (.ok (failDict ("OpenAI API错误: " ++ msg) svc prompt), log2)
          | none =>
            (.ok (failDict ("OpenAI API错误: " ++ toString status ++ " - " ++ rawText) svc prompt), log2)
    | .error ex, _ => (.error ex, log)
    | .ok _, .error ex => (.error ex, log)

def msNoResultMsg : String := "No translation result received from Microsoft Translator"
def msTimeoutMsg : String := "Microsoft Translator API请求超时，请稍后重试"
def msFailPrefix : String := "Microsoft Translator API请求失败: "

/-- The 200-response handling of `_translate_with_microsoft`:
`if result and len(result) > 0: translations = result[0].get('translations', [])`,
then `translations[0].get('text', '')` when `translations` is truthy.  A
present `text` value is stored verbatim in the success dictionary — also when
it is not a string (`null`, a number, an array or an object), since `.get`
performs no coercion.  Shapes on which the Python would raise inside the
surrounding generic `except` (non-list bodies, non-dict elements) yield the
generic failure dictionary; the exact `str(e)` text is abstracted to a tag. -/
def msExtract (body : Option Json) (svc prompt lang : String) : Dict :=
  match body with
  | none => failDict (msFailPrefix ++ "JSONDecodeError") svc prompt
  | some .jnull => failDict msNoResultMsg svc prompt
  | some (.jarr []) => failDict msNoResultMsg svc prompt
  | some (.jarr (x :: _)) =>
    (match x with
     | .jobj fs =>
       (match jLookup fs "translations" with
        | none => failDict msNoResultMsg svc prompt
        | some .jnull => failDict msNoResultMsg svc prompt
        | some (.jarr []) => failDict msNoResultMsg svc prompt
        | some (.jarr (tr :: _)) =>
          (match tr with
           | .jobj tfs =>
             (match jLookup tfs "text" with
              | some (.jstr s) => msSuccessDict s svc prompt lang
              | some .jnull => msSuccessDictV .vnone svc prompt lang
              | some v => msSuccessDictV (.vjson v) svc prompt lang
              | none => msSuccessDict "" svc prompt lang)
           | _ => failDict (msFailPrefix ++ "AttributeError") svc prompt)
        | some (.jstr s) =>
          if s = "" then failDict msNoResultMsg svc prompt
          else failDict (msFailPrefix ++ "AttributeError") svc prompt
        | some (.jnum n) =>
          if n = 0 then failDict msNoResultMsg svc prompt
          else failDict (msFailPrefix ++ "TypeError") svc prompt
        | some (.jobj fs2) =>
          if fs2.isEmpty then failDict msNoResultMsg svc prompt
          else failDict (msFailPrefix ++ "KeyError") svc prompt)
     | _ => failDict (msFailPrefix ++ "AttributeError") svc prompt)
  | some (.jstr s) =>
    if s = "" then failDict msNoResultMsg svc prompt
    else failDict (msFailPrefix ++ "AttributeError") svc prompt
  | some (.jnum n) =>
    if n = 0 then failDict msNoResultMsg svc prompt
    else failDict (msFailPrefix ++ "TypeError") svc prompt
  | some (.jobj fs) =>
    if fs.isEmpty then failDict msNoResultMsg svc prompt
    else failDict (msFailPrefix ++ "KeyError") svc prompt

/-- `TranslationService._translate_with_microsoft`.  The whole network
interaction sits in a `try` whose handlers turn a transport timeout, any
other exception, and shape errors into failure dictionaries, so this adapter
never propagates an exception from the POST onward; only the URL construction
before the `try` (`config['api_url']`) can raise.  The random
`X-ClientTraceId` header is not modelled (headers are not recorded). -/
def translateWithMicrosoft (e : Env) (sess : Session) (t : Transport)
    (log : List PostReq) (text prompt svc : String) (timeout : Nat) :
    Except PyExn Dict × List PostReq :=
  let config := get_service_config e sess svc
  let api_key := getStrD config "api_key" ""
  let _region := getStrD config "region" "southeastasia"
  if api_key = "" ∨ api_key = apiKeyPlaceholder then
    (.ok (failDict apiKeyMissingMsg svc prompt), log)
  else
    let target_lang := extractTargetLanguageFromPrompt prompt
    match dIndexStr config "api_url" with
    | .error ex => (.error ex, log)
    | .ok base_url =>
      let url := base_url ++ "/translate?api-version=3.0" ++ "&to=" ++ target_lang
      let req : PostReq := ⟨url, .jarr [.jobj [("text", .jstr text)]], timeout⟩
      let r := t log.length req
      let log2 := log ++ [req]
      match r with
      | .timeout => (.ok (failDict msTimeoutMsg svc prompt), log2)
      | .netErr m => (.ok (failDict (msFailPrefix ++ m) svc prompt), log2)
      | .resp status body rawText =>
        if status = 200 then
          (.ok (msExtract body svc prompt target_lang), log2)
        else
          match parseErrMsg body with
          | some msg =>
            (.ok (failDict ("Microsoft Translator API错误: " ++ msg) svc prompt), log2)
          | none =>
            (.ok (failDict ("Microsoft Translator API错误: " ++ toString status ++ " - " ++ rawText) svc prompt), log2)

/-! ## The dispatcher (`translate_text` and helpers) -/

/-- The `if service_name == 'deepseek' / 'openai' / 'microsoft' / else` chain
that both `_translate_short_text` and `_translate_long_text` repeat verbatim.
`errPrompt` is the prompt placed in the unsupported-service dictionary (the
original prompt, even when `callPrompt` is a per-chunk prompt). -/
def dispatchByService (e : Env) (sess : Session) (t : Transport)
    (log : List PostReq) (text callPrompt svc : String) (timeout : Nat)
    (errPrompt : String) : Except PyExn Dict × List PostReq :=
  if svc = "deepseek" then translateWithDeepseek e sess t log text callPrompt svc timeout
  else if svc = "openai" then translateWithOpenai e sess t log text callPrompt svc timeout
  else if svc = "microsoft" then translateWithMicrosoft e sess t log text callPrompt svc timeout
  else (.ok (failDict ("Unsupported translation service: " ++ svc) svc errPrompt), log)

def shortTimeoutMsg : String :=
  "Translation timeout. Please try again later or reduce text length."

/-- The retry loop of `_translate_short_text`, counting attempts left
(`attemptsLeft = max_retries - attempt`).  A timeout with further attempts
available sleeps `retry_delay` seconds (wall clock, not modelled) and
retries; on the last attempt it returns the timeout dictionary; any other
exception returns immediately.  The `0` case corresponds to Python falling
off the `for` loop and returning `None` — unreachable, as the loop is always
entered with `max_retries = 3`. -/
def translateShortTextGo (e : Env) (sess : Session) (t : Transport)
    (text prompt svc : String) : Nat → List PostReq → Dict × List PostReq
  | 0, log => ([], log)
  | k + 1, log =>
    match dispatchByService e sess t log text prompt svc timeout_short prompt with
    | (.ok d, log2) => (d, log2)
    | (.error .timeoutE, log2) =>
      if 0 < k then translateShortTextGo e sess t text prompt svc k log2
      else (failDict shortTimeoutMsg svc prompt, log2)
    | (.error (.otherE m), log2) =>
      (failDict ("Translation failed: " ++ m) svc prompt, log2)

/-- `TranslationService._translate_short_text`. -/
def translate_short_text (e : Env) (sess : Session) (t : Transport)
    (log : List PostReq) (text prompt svc : String) : Dict × List PostReq :=
  translateShortTextGo e sess t text prompt svc max_retries log

/-- `str` items collected by `'\n\n'.join`: Python's `str.join` demands every
item be a string and raises `TypeError` at the first non-string item; `none`
models that exception. -/
def collectStrs : List PyVal → Option (List String)
  | [] => some []
  | .vstr s :: rest => (collectStrs rest).map (s :: ·)
  | _ => none

/-- `'\n\n'.join(translated_chunks)` — `none` when the join raises. -/
def joinChunks (items : List PyVal) : Option String :=
  (collectStrs items).map (String.intercalate "\n\n")

/-- The per-chunk loop of `_translate_long_text`: `i` is the 1-based chunk
number, `translated` the accumulated `translated_text` values (which
`translated_chunks.append(result['translated_text'])` adds without any type
check, so a malformed Microsoft success can contribute a non-string).  A
chunk whose result carries a truthy `error` is returned as the overall
result; a timeout or other exception inside the loop body yields the per-part
failure dictionary.  When all chunks succeed the values are joined with
`'\n\n'.join`, which sits after the loop and outside its `try`: a non-string
item makes it raise `TypeError`, propagating out of `_translate_long_text` to
the `except` of `translate_text` — hence the `Except` result. -/
def translateLongLoop (e : Env) (sess : Session) (t : Transport)
    (prompt svc : String) (total : Nat) :
    List String → Nat → List PyVal → List PostReq → Except PyExn Dict × List PostReq
  | [], _, translated, log =>
    (match joinChunks translated with
     | some tt => (.ok (successLongDict tt svc prompt total), log)
     | none => (.error (.otherE "TypeError"), log))
  | ch :: rest, i, translated, log =>
    let chunk_prompt := prompt ++ "\n\n(Part " ++ toString i ++ "/" ++ toString total ++ ")"
    match dispatchByService e sess t log ch chunk_prompt svc timeout_long prompt with
    | (.ok d, log2) =>
      if truthyO (alGet d "error") then (.ok d, log2)
      else
        (match alGet d "translated_text" with
         | some v =>
           translateLongLoop e sess t prompt svc total rest (i + 1) (translated ++ [v]) log2
         | none =>
           (.ok (failDict ("Translation failed on part " ++ toString i ++ ": KeyError") svc prompt), log2))
    | (.error .timeoutE, log2) =>
      (.ok (failDict ("Translation timeout on part " ++ toString i ++ ". Please try again later or reduce text length.") svc prompt), log2)
    | (.error (.otherE m), log2) =>
      (.ok (failDict ("Translation failed on part " ++ toString i ++ ": " ++ m) svc prompt), log2)

/-- `TranslationService._translate_long_text`.  The one-chunk fallback calls
`_translate_short_text`, which never raises, hence the `.ok` wrapper. -/
def translate_long_text (e : Env) (sess : Session) (t : Transport)
    (log : List PostReq) (text prompt svc : String) : Except PyExn Dict × List PostReq :=
  let chunks := splitText text
  if chunks.length = 1 then
    let r := translate_short_text e sess t log text prompt svc
    (.ok r.1, r.2)
  else translateLongLoop e sess t prompt svc chunks.length chunks 1 [] log

/-- The body of the `try` of `translate_text`: the short or chunked path.
Only the chunked path can raise (the blank-line join). -/
def translate_body (e : Env) (sess : Session) (t : Transport)
    (text prompt svc : String) : Except PyExn Dict × List PostReq :=
  if max_chunk_size < text.length then translate_long_text e sess t [] text prompt svc
  else
    let r := translate_short_text e sess t [] text prompt svc
    (.ok r.1, r.2)

/-- `TranslationService.translate_text`: validation, default-service
substitution (`if not service_name:` also catches the empty string),
availability check, then the short or chunked path under the source's
`try/except Exception`, which turns any escaping exception — reachable only
through the chunked path's `'\n\n'.join` — into the
`'Translation error: ...'` failure dictionary.  The returned list is every
POST issued while serving the request. -/
def translate_text (e : Env) (sess : Session) (t : Transport)
    (text prompt : String) (service_name : Option String) : Dict × List PostReq :=
  if pyStrip text = "" then
    (failDict "Input text cannot be empty" "" prompt, [])
  else if pyStrip prompt = "" then
    (failDict "Translation prompt cannot be empty" "" "", [])
  else
    let svc := match service_name with
      | none => DEFAULT_TRANSLATION_SERVICE
      | some s => if s = "" then DEFAULT_TRANSLATION_SERVICE else s
    if ¬ is_service_available e sess svc then
      (failDict ("Translation service " ++ svc ++ " is not available. Please check API key configuration.") svc prompt, [])
    else
      match translate_body e sess t text prompt svc with
      | (.ok d, log) => (d, log)
      | (.error ex, log) =>
        (failDict ("Translation error: " ++ pyExnMsg ex) svc prompt, log)

/-! ## General helper lemmas -/

theorem append_ne_empty (a b : String) (h : a ≠ "") : a ++ b ≠ "" := by
  intro hc
  apply h
  have hd : (a ++ b).data = ("" : String).data := congrArg String.data hc
  rw [String.data_append] at hd
  have ha : a.data = [] := (List.append_eq_nil.mp hd).1
  cases a
  cases ha
  rfl

/-- The shape shared by every result dictionary `translate_text` can return:
either a failed result — a non-empty `error` string together with an empty
`translated_text` — or a successful one — `error` is `None` and the
`translated_text` key is present (usually a string, but the Microsoft
success path stores the deserialized `text` value verbatim) — and in both
cases the `service_used` and `prompt_used` keys are present. -/
def WellFormedResult (d : Dict) : Prop :=
  ((∃ m, m ≠ "" ∧ alGet d "error" = some (PyVal.vstr m) ∧
       alGet d "translated_text" = some (PyVal.vstr "")) ∨
   (alGet d "error" = some PyVal.vnone ∧
       (alGet d "translated_text").isSome)) ∧
  (alGet d "service_used").isSome ∧ (alGet d "prompt_used").isSome

theorem failDict_wf (m svc p : String) (h : m ≠ "") :
    WellFormedResult (failDict m svc p) := by
  refine ⟨Or.inl ⟨m, h, ?_, ?_⟩, ?_, ?_⟩ <;> rfl

theorem successShortDict_wf (tt svc p : String) :
    WellFormedResult (successShortDict tt svc p) := by
  refine ⟨Or.inr ⟨?_, ?_⟩, ?_, ?_⟩ <;> rfl

theorem msSuccessDict_wf (tt svc p lang : String) :
    WellFormedResult (msSuccessDict tt svc p lang) := by
  refine ⟨Or.inr ⟨?_, ?_⟩, ?_, ?_⟩ <;> rfl

theorem msSuccessDictV_wf (tt : PyVal) (svc p lang : String) :
    WellFormedResult (msSuccessDictV tt svc p lang) := by
  refine ⟨Or.inr ⟨?_, ?_⟩, ?_, ?_⟩ <;> rfl

theorem successLongDict_wf (tt svc p : String) (total : Nat) :
    WellFormedResult (successLongDict tt svc p total) := by
  refine ⟨Or.inr ⟨?_, ?_⟩, ?_, ?_⟩ <;> rfl

/-! ## C7: short texts are returned as a single chunk -/

theorem splitText_whole_of_le (s : String) (h : s.length ≤ max_chunk_size) :
    splitText s = [s] := by
  unfold splitText
  rw [if_pos h]

/-- C7: for every text of at most `max_chunk_size` (3000) characters, the
splitter returns exactly the one-element list containing the text unchanged. -/
theorem splitText_short (s : String) (h : s.length ≤ max_chunk_size) :
    splitText s = [s] :=
  splitText_whole_of_le s h

/-- Witness for C7 at the concrete input `"hello"`. -/
theorem splitText_short_witness :
    "hello".length ≤ max_chunk_size ∧ splitText "hello" = ["hello"] :=
  ⟨by decide, splitText_short "hello" (by decide)⟩

/-! ## C4: session override resolution round trip -/

/-- C4: with no session override, resolution returns the baseline
configuration unmodified; after `set_user_config(p, "newkey", "modelX")` it
returns credential `"newkey"` and model `"modelX"` with `enabled` recomputed
from the override (`bool("newkey".strip()) = True`); after
`clear_user_config(p)` it returns the baseline again. -/
theorem config_override_round_trip (e : Env) (p : String)
    (hp : p ∈ ["deepseek", "openai", "microsoft"]) :
    get_service_config e [] p = (alGet (AVAILABLE_SERVICES e) p).getD [] ∧
    (getStrD (get_service_config e (set_user_config [] p "newkey" (some "modelX")) p) "api_key" "" = "newkey" ∧
     getStrD (get_service_config e (set_user_config [] p "newkey" (some "modelX")) p) "model" "" = "modelX" ∧
     alGet (get_service_config e (set_user_config [] p "newkey" (some "modelX")) p) "enabled" = some (PyVal.vbool true)) ∧
    get_service_config e (clear_user_config (set_user_config [] p "newkey" (some "modelX")) p) p
      = get_service_config e [] p := by
  fin_cases hp <;> exact ⟨rfl, ⟨rfl, rfl, rfl⟩, rfl⟩

/-- Witness for C4 at a concrete environment and provider `"deepseek"`. -/
theorem config_override_round_trip_witness :
    "deepseek" ∈ (["deepseek", "openai", "microsoft"] : List String) ∧
    (get_service_config ⟨"dk", "ok", "mk", "region1"⟩ [] "deepseek"
        = (alGet (AVAILABLE_SERVICES ⟨"dk", "ok", "mk", "region1"⟩) "deepseek").getD [] ∧
     (getStrD (get_service_config ⟨"dk", "ok", "mk", "region1"⟩ (set_user_config [] "deepseek" "newkey" (some "modelX")) "deepseek") "api_key" "" = "newkey" ∧
      getStrD (get_service_config ⟨"dk", "ok", "mk", "region1"⟩ (set_user_config [] "deepseek" "newkey" (some "modelX")) "deepseek") "model" "" = "modelX" ∧
      alGet (get_service_config ⟨"dk", "ok", "mk", "region1"⟩ (set_user_config [] "deepseek" "newkey" (some "modelX")) "deepseek") "enabled" = some (PyVal.vbool true)) ∧
     get_service_config ⟨"dk", "ok", "mk", "region1"⟩ (clear_user_config (set_user_config [] "deepseek" "newkey" (some "modelX")) "deepseek") "deepseek"
       = get_service_config ⟨"dk", "ok", "mk", "region1"⟩ [] "deepseek") :=
  ⟨by decide, config_override_round_trip ⟨"dk", "ok", "mk", "region1"⟩ "deepseek" (by decide)⟩

/-! ## C9: blank input is rejected before any transport call -/

/-- C9: for every environment, session, transport and instruction, a blank
(empty or whitespace-only) source text is rejected with the validation error
dictionary and an empty POST log, and likewise a blank instruction; the
transport is never invoked. -/
theorem blank_input_validation (e : Env) (sess : Session) (t : Transport)
    (text prompt : String) (svcOpt : Option String) :
    (pyStrip text = "" →
      translate_text e sess t text prompt svcOpt
        = (failDict "Input text cannot be empty" "" prompt, [])) ∧
    (pyStrip text ≠ "" → pyStrip prompt = "" →
      translate_text e sess t text prompt svcOpt
        = (failDict "Translation prompt cannot be empty" "" "", [])) := by
  constructor
  · intro h
    unfold translate_text
    rw [if_pos h]
  · intro h1 h2
    unfold translate_text
    rw [if_neg h1, if_pos h2]

/-- Witness for C9: blank text `"  "`, and blank instruction with text `"hi"`. -/
theorem blank_input_validation_witness :
    (pyStrip "  " = "" ∧
     translate_text ⟨"dk", "ok", "mk", "r"⟩ [] (fun _ _ => PostResult.timeout) "  " "p" none
       = (failDict "Input text cannot be empty" "" "p", [])) ∧
    (pyStrip "hi" ≠ "" ∧ pyStrip " " = "" ∧
     translate_text ⟨"dk", "ok", "mk", "r"⟩ [] (fun _ _ => PostResult.timeout) "hi" " " none
       = (failDict "Translation prompt cannot be empty" "" "", [])) :=
  ⟨⟨by decide, (blank_input_validation ⟨"dk", "ok", "mk", "r"⟩ [] (fun _ _ => PostResult.timeout) "  " "p" none).1 (by decide)⟩,
   ⟨by decide, by decide, (blank_input_validation ⟨"dk", "ok", "mk", "r"⟩ [] (fun _ _ => PostResult.timeout) "hi" " " none).2 (by decide) (by decide)⟩⟩

/-! ## C8: language inference -/

/-- `find?` returns the element at the first index whose predicate holds. -/
theorem find?_first_index {α : Type} (p : α → Bool) :
    ∀ (l : List α) (i : Nat) (hi : i < l.length),
      (∀ x ∈ l.take i, p x = false) → p (l.get ⟨i, hi⟩) = true →
      l.find? p = some (l.get ⟨i, hi⟩) := by
  intro l
  induction l with
  | nil => intro i hi; simp at hi
  | cons a rest ih =>
    intro i hi hpre hp
    cases i with
    | zero =>
      simp only [List.get] at hp
      simp [List.find?, hp]
    | succ j =>
      have ha : p a = false := hpre a (by simp [List.take])
      simp only [List.get] at hp ⊢
      simp only [List.find?, ha]
      exact ih j (by simpa using hi)
        (fun x hx => hpre x (by simp [List.take]; exact Or.inr hx)) hp

/-- C8: language inference lower-cases the instruction and scans the ordered
keyword table, returning the code of the first keyword (in table order)
contained in it and `"zh"` when none matches; in particular
`infer("请翻译成日语") = "ja"` and `infer("please rewrite this") = "zh"`. -/
theorem language_inference :
    extractTargetLanguageFromPrompt "请翻译成日语" = "ja" ∧
    extractTargetLanguageFromPrompt "please rewrite this" = "zh" ∧
    (∀ p, (∀ kv ∈ languageMappings, strContains (pyLower p) kv.1 = false) →
      extractTargetLanguageFromPrompt p = "zh") ∧
    (∀ p i (hi : i < languageMappings.length),
      strContains (pyLower p) (languageMappings.get ⟨i, hi⟩).1 = true →
      (∀ kv ∈ languageMappings.take i, strContains (pyLower p) kv.1 = false) →
      extractTargetLanguageFromPrompt p = (languageMappings.get ⟨i, hi⟩).2) := by
  refine ⟨by decide, by decide, ?_, ?_⟩
  · intro p h
    have hn : languageMappings.find? (fun kv => strContains (pyLower p) kv.1) = none :=
      List.find?_eq_none.mpr (fun x hx => by simp [h x hx])
    simp [extractTargetLanguageFromPrompt, hn]
  · intro p i hi hp hpre
    have hf := find?_first_index (fun kv => strContains (pyLower p) kv.1)
      languageMappings i hi hpre hp
    simp [extractTargetLanguageFromPrompt, hf]

/-- Witness for C8: the keyword `"日语"` sits at index 8 of the table, no
earlier keyword occurs in `"请翻译成日语"`, and inference returns its code. -/
theorem language_inference_witness :
    strContains (pyLower "请翻译成日语") "日语" = true ∧
    extractTargetLanguageFromPrompt "请翻译成日语" = "ja" :=
  ⟨by decide,
   language_inference.2.2.2 "请翻译成日语" 8 (by decide) (by decide) (by decide)⟩

/-! ## Periodic-text lemmas for the splitter

For texts of the shape `("a" * (m+1) + ".") * n` the splitter's behaviour
can be computed symbolically; these lemmas avoid kernel evaluation over tens
of thousands of characters. -/

theorem pairsAux_delim (c : Char) (hc : isSentDelim c = true)
    (cs sAcc dAcc : List Char) :
    pairsAux (c :: cs) sAcc dAcc = pairsAux cs sAcc (c :: dAcc) := by
  simp [pairsAux, hc]

theorem pairsAux_plain (c : Char) (hc : isSentDelim c = false)
    (cs sAcc : List Char) :
    pairsAux (c :: cs) sAcc [] = pairsAux cs (c :: sAcc) [] := by
  simp [pairsAux, hc]

theorem pairsAux_emit (c : Char) (hc : isSentDelim c = false)
    (cs sAcc : List Char) (d : Char) (ds : List Char) :
    pairsAux (c :: cs) sAcc (d :: ds)
      = (sAcc.reverse, (d :: ds).reverse) :: pairsAux cs [c] [] := by
  simp [pairsAux, hc]

theorem replicate_append_cons (j : Nat) (c : Char) (l : List Char) :
    List.replicate j c ++ c :: l = c :: (List.replicate j c ++ l) := by
  induction j with
  | zero => rfl
  | succ i ih => rw [List.replicate_succ, List.cons_append, ih, List.cons_append]

theorem pairsAux_replicate (k : Nat) :
    ∀ (cs sAcc : List Char),
      pairsAux (List.replicate k 'a' ++ cs) sAcc []
        = pairsAux cs (List.replicate k 'a' ++ sAcc) [] := by
  induction k with
  | zero => intro cs sAcc; simp
  | succ j ih =>
    intro cs sAcc
    rw [List.replicate_succ 'a' j, List.cons_append, pairsAux_plain 'a' (by decide),
        ih cs ('a' :: sAcc)]
    congr 1
    rw [replicate_append_cons, List.cons_append]

theorem sentS_cons (m : Nat) :
    List.replicate (m + 1) 'a' ++ ['.'] = 'a' :: (List.replicate m 'a' ++ ['.']) := by
  rw [List.replicate_succ, List.cons_append]

theorem pairsAux_dot (m : Nat) :
    ∀ (n : Nat) (sAcc : List Char),
      pairsAux ((List.replicate n (List.replicate (m + 1) 'a' ++ ['.'])).flatten) sAcc ['.']
        = (sAcc.reverse, ['.']) ::
            (List.replicate n (List.replicate (m + 1) 'a', (['.'] : List Char)) ++ [([], [])]) := by
  intro n
  induction n with
  | zero => intro sAcc; simp [pairsAux]
  | succ j ih =>
    intro sAcc
    rw [List.replicate_succ (List.replicate (m + 1) 'a' ++ ['.']) j, List.flatten_cons]
    rw [show (List.replicate (m + 1) 'a' ++ ['.']) ++
          (List.replicate j (List.replicate (m + 1) 'a' ++ ['.'])).flatten
        = 'a' :: (List.replicate m 'a' ++
            ('.' :: (List.replicate j (List.replicate (m + 1) 'a' ++ ['.'])).flatten)) from by
      rw [sentS_cons m, List.cons_append, List.append_assoc, List.singleton_append]]
    rw [pairsAux_emit 'a' (by decide) _ sAcc '.' []]
    rw [pairsAux_replicate m]
    rw [pairsAux_delim '.' (by decide)]
    rw [← List.replicate_succ' m 'a']
    rw [ih (List.replicate (m + 1) 'a')]
    rw [List.reverse_replicate]
    rw [List.replicate_succ (List.replicate (m + 1) 'a', (['.'] : List Char)) j]
    simp

theorem sentencePairs_periodic (m n : Nat) :
    sentencePairs ((List.replicate (n + 1) (List.replicate (m + 1) 'a' ++ ['.'])).flatten)
      = List.replicate (n + 1) (List.replicate (m + 1) 'a', (['.'] : List Char)) ++ [([], [])] := by
  unfold sentencePairs
  rw [List.replicate_succ (List.replicate (m + 1) 'a' ++ ['.']) n, List.flatten_cons,
      List.append_assoc, pairsAux_replicate (m + 1)]
  rw [List.append_nil, List.singleton_append, pairsAux_delim '.' (by decide)]
  rw [pairsAux_dot m n]
  rw [List.reverse_replicate,
      List.replicate_succ (List.replicate (m + 1) 'a', (['.'] : List Char)) n]
  simp

theorem dropWhile_eq_self_of_all {p : Char → Bool} :
    ∀ (l : List Char), (∀ c ∈ l, p c = false) → l.dropWhile p = l := by
  intro l h
  cases l with
  | nil => rfl
  | cons c cs => rw [List.dropWhile_cons, h c (by simp)]; simp

theorem pyStripL_eq_self (l : List Char) (h : ∀ c ∈ l, isPyWs c = false) :
    pyStripL l = l := by
  unfold pyStripL
  rw [dropWhile_eq_self_of_all l h]
  rw [dropWhile_eq_self_of_all l.reverse (fun c hc => h c (List.mem_reverse.mp hc))]
  exact List.reverse_reverse l

theorem sentChunk_no_ws (m : Nat) :
    ∀ c ∈ List.replicate (m + 1) 'a' ++ ['.'], isPyWs c = false := by
  intro c hc
  rcases List.mem_append.mp hc with h | h
  · rw [(List.mem_replicate.mp h).2]; decide
  · simp at h; rw [h]; decide

theorem buildChunksLoop_nil (current : List Char) (acc : List (List Char)) :
    buildChunksLoop [] current acc = (acc, current) := rfl

theorem buildChunksLoop_cons (s p : List Char) (rest : List (List Char × List Char))
    (current : List Char) (acc : List (List Char)) :
    buildChunksLoop ((s, p) :: rest) current acc
      = if current.length + (s ++ p).length > max_chunk_size ∧ current ≠ [] then
          buildChunksLoop rest (s ++ p) (acc ++ [pyStripL current])
        else buildChunksLoop rest (current ++ (s ++ p)) acc := rfl

theorem buildChunksLoop_periodic (m : Nat) (h1 : 1499 ≤ m) (h2 : m ≤ 2998) :
    ∀ (k : Nat) (acc : List (List Char)),
      buildChunksLoop
          (List.replicate k (List.replicate (m + 1) 'a', (['.'] : List Char)) ++ [([], [])])
          (List.replicate (m + 1) 'a' ++ ['.']) acc
        = (acc ++ List.replicate k (List.replicate (m + 1) 'a' ++ ['.']),
           List.replicate (m + 1) 'a' ++ ['.']) := by
  intro k
  induction k with
  | zero =>
    intro acc
    rw [List.replicate_zero, List.nil_append, buildChunksLoop_cons]
    rw [if_neg (by rintro ⟨hgt, -⟩; simp [max_chunk_size] at hgt; omega)]
    rw [buildChunksLoop_nil]
    simp
  | succ j ih =>
    intro acc
    rw [List.replicate_succ (List.replicate (m + 1) 'a', (['.'] : List Char)) j,
        List.cons_append, buildChunksLoop_cons]
    rw [if_pos (by constructor
                   · simp [max_chunk_size]; omega
                   · simp)]
    rw [pyStripL_eq_self _ (sentChunk_no_ws m), ih (acc ++ [List.replicate (m + 1) 'a' ++ ['.']])]
    rw [List.replicate_succ (List.replicate (m + 1) 'a' ++ ['.']) j]
    simp

theorem sentenceChunks_periodic (m n : Nat) (h1 : 1499 ≤ m) (h2 : m ≤ 2998) :
    sentenceChunks ((List.replicate (n + 1) (List.replicate (m + 1) 'a' ++ ['.'])).flatten)
      = List.replicate (n + 1) (List.replicate (m + 1) 'a' ++ ['.']) := by
  have hloop : buildChunksLoop
      (sentencePairs ((List.replicate (n + 1) (List.replicate (m + 1) 'a' ++ ['.'])).flatten)) [] []
      = (List.replicate n (List.replicate (m + 1) 'a' ++ ['.']),
         List.replicate (m + 1) 'a' ++ ['.']) := by
    rw [sentencePairs_periodic m n,
        List.replicate_succ (List.replicate (m + 1) 'a', (['.'] : List Char)) n,
        List.cons_append, buildChunksLoop_cons]
    rw [if_neg (by rintro ⟨-, hne⟩; exact hne rfl)]
    rw [List.nil_append, buildChunksLoop_periodic m h1 h2 n [], List.nil_append]
  unfold sentenceChunks
  rw [hloop]
  simp only
  rw [pyStripL_eq_self _ (sentChunk_no_ws m)]
  rw [if_pos (by simp)]
  exact (List.replicate_succ' n _).symm

/-! ## Window lemmas for the forced re-split -/

theorem windows_flatten : ∀ (cs : List Char), (windows cs).flatten = cs := by
  intro cs
  induction cs using windows.induct with
  | case1 => simp [windows]
  | case2 c cs ih =>
    rw [windows]
    rw [List.flatten_cons, ih, List.take_append_drop]

theorem windows_mem (cs : List Char) :
    ∀ w ∈ windows cs, w ≠ [] ∧ w.length ≤ max_chunk_size := by
  induction cs using windows.induct with
  | case1 => simp [windows]
  | case2 c cs ih =>
    intro w hw
    rw [windows] at hw
    rcases List.mem_cons.mp hw with h | h
    · subst h
      constructor
      · simp [max_chunk_size]
      · exact List.length_take_le max_chunk_size (c :: cs)
    · exact ih w h

theorem windows_periodic (S : List Char) (hS : S.length = max_chunk_size) (hne : S ≠ []) :
    ∀ n, windows ((List.replicate n S).flatten) = List.replicate n S := by
  intro n
  induction n with
  | zero => simp [windows]
  | succ j ih =>
    rw [List.replicate_succ S j, List.flatten_cons]
    rcases S with _ | ⟨c, s⟩
    · exact absurd rfl hne
    · rw [List.cons_append, windows, ← List.cons_append, ← hS,
          List.take_left, List.drop_left, ih]

theorem filterMap_replicate_some {α β : Type} (f : α → Option β) (x : α) (y : β)
    (h : f x = some y) : ∀ n, (List.replicate n x).filterMap f = List.replicate n y := by
  intro n
  induction n with
  | zero => rfl
  | succ j ih => rw [List.replicate_succ, List.filterMap_cons, h, ih, List.replicate_succ]

/-! ## C2: the 10-chunk cap and the forced re-split -/

/-- A 3000-character sentence: 2999 `'a'`s followed by `'.'`. -/
def chunk3000 : List Char := List.replicate 2999 'a' ++ ['.']

/-- Twelve such sentences: 36000 characters whose sentence-based split yields
12 chunks. -/
def c2list : List Char := (List.replicate 12 chunk3000).flatten

def c2text : String := String.mk c2list

theorem chunk3000_length : chunk3000.length = 3000 := by
  rw [chunk3000, List.length_append, List.length_replicate]
  rfl

theorem chunk3000_ne_nil : chunk3000 ≠ [] := by
  rw [chunk3000]
  intro hc
  exact absurd (List.append_eq_nil.mp hc).2 (by decide)

theorem c2text_length : c2text.length = 36000 := by
  show ((List.replicate 12 chunk3000).flatten).length = 36000
  rw [List.length_flatten, List.map_replicate, chunk3000_length, List.sum_replicate,
      smul_eq_mul]

theorem sentenceChunks_c2 : sentenceChunks c2list = List.replicate 12 chunk3000 := by
  exact sentenceChunks_periodic 2998 11 (by norm_num) (by norm_num)

theorem pyStripL_chunk3000 : pyStripL chunk3000 = chunk3000 := by
  apply pyStripL_eq_self
  intro c hc
  rw [chunk3000] at hc
  rcases List.mem_append.mp hc with h | h
  · rw [(List.mem_replicate.mp h).2]; decide
  · simp at h; rw [h]; decide

theorem forcedChunks_c2 : forcedChunks c2list = List.replicate 12 chunk3000 := by
  unfold forcedChunks
  rw [show windows c2list = List.replicate 12 chunk3000 from
      windows_periodic chunk3000 chunk3000_length chunk3000_ne_nil 12]
  refine filterMap_replicate_some _ chunk3000 chunk3000 ?_ 12
  simp only
  rw [pyStripL_chunk3000]
  rw [if_pos chunk3000_ne_nil]

theorem splitText_c2 : splitText c2text = (List.replicate 12 chunk3000).map String.mk := by
  unfold splitText
  rw [if_neg (by rw [c2text_length]; norm_num [max_chunk_size])]
  show (if (sentenceChunks c2list).length > 10 then forcedChunks c2list
        else sentenceChunks c2list).map String.mk = _
  rw [sentenceChunks_c2, List.length_replicate]
  rw [if_pos (by norm_num)]
  rw [forcedChunks_c2]

/-- C2 counterexample: the claim "the list of chunks produced by the splitter
has length at most 10" is false — on the 36000-character text
`("a"*2999 + ".") * 12` the sentence-based split yields 12 chunks, so the
splitter falls back to fixed windows, but those windows are 12 chunks as
well. -/
theorem chunk_cap_counterexample :
    (splitText c2text).length = 12 ∧ ¬ ((splitText c2text).length ≤ 10) := by
  have hlen : (splitText c2text).length = 12 := by
    rw [splitText_c2, List.length_map, List.length_replicate]
  exact ⟨hlen, by rw [hlen]; decide⟩

/-- C2 amended: whenever sentence-based splitting yields more than 10 chunks,
that result is discarded and the text is re-split into fixed character
windows of at most `max_chunk_size` (3000) characters each, covering the
whole text, with windows empty after trimming dropped — but the resulting
chunk count is NOT bounded by 10. -/
theorem chunk_cap_amended (s : String) (h1 : max_chunk_size < s.length)
    (h2 : 10 < (sentenceChunks s.toList).length) :
    splitText s = (forcedChunks s.toList).map String.mk ∧
    (windows s.toList).flatten = s.toList ∧
    (∀ w ∈ windows s.toList, w ≠ [] ∧ w.length ≤ max_chunk_size) := by
  refine ⟨?_, windows_flatten s.toList, windows_mem s.toList⟩
  unfold splitText
  rw [if_neg (by omega)]
  show (if (sentenceChunks s.toList).length > 10 then forcedChunks s.toList
        else sentenceChunks s.toList).map String.mk = _
  rw [if_pos h2]

/-- Witness for the amended C2 at the 36000-character periodic text. -/
theorem chunk_cap_amended_witness :
    (max_chunk_size < c2text.length ∧ 10 < (sentenceChunks c2text.toList).length) ∧
    (splitText c2text = (forcedChunks c2text.toList).map String.mk ∧
     (windows c2text.toList).flatten = c2text.toList ∧
     (∀ w ∈ windows c2text.toList, w ≠ [] ∧ w.length ≤ max_chunk_size)) :=
  ⟨⟨by rw [c2text_length]; norm_num [max_chunk_size],
    by show 10 < (sentenceChunks c2list).length
       rw [sentenceChunks_c2, List.length_replicate]; norm_num⟩,
   chunk_cap_amended c2text (by rw [c2text_length]; norm_num [max_chunk_size])
     (by show 10 < (sentenceChunks c2list).length
         rw [sentenceChunks_c2, List.length_replicate]; norm_num)⟩

/-! ## Result-shape invariants (C3, C10)

Every result dictionary produced by the service is `WellFormedResult`; the
lemmas follow the call structure of the source. -/

theorem msExtract_wf (body : Option Json) (svc prompt lang : String) :
    WellFormedResult (msExtract body svc prompt lang) := by
  unfold msExtract
  repeat' split
  all_goals
    first
      | exact msSuccessDict_wf _ svc prompt lang
      | exact msSuccessDictV_wf _ svc prompt lang
      | exact failDict_wf _ svc prompt (by decide)

theorem translateWithDeepseek_ok_wf (e : Env) (sess : Session) (t : Transport)
    (log : List PostReq) (text prompt svc : String) (timeout : Nat) :
    ∀ d log2, translateWithDeepseek e sess t log text prompt svc timeout = (.ok d, log2) →
      WellFormedResult d := by
  intro d log2 h
  simp only [translateWithDeepseek] at h
  repeat' split at h
  all_goals (injection h with h1 h2)
  all_goals (try (exact Except.noConfusion h1))
  all_goals (injection h1 with h3)
  all_goals (subst h3)
  all_goals
    first
      | exact successShortDict_wf _ svc prompt
      | exact failDict_wf _ svc prompt (by decide)
      | exact failDict_wf _ svc prompt (append_ne_empty _ _ (by decide))
      | exact failDict_wf _ svc prompt
          (append_ne_empty _ _ (append_ne_empty _ _ (append_ne_empty _ _ (by decide))))

theorem translateWithOpenai_ok_wf (e : Env) (sess : Session) (t : Transport)
    (log : List PostReq) (text prompt svc : String) (timeout : Nat) :
    ∀ d log2, translateWithOpenai e sess t log text prompt svc timeout = (.ok d, log2) →
      WellFormedResult d := by
  intro d log2 h
  simp only [translateWithOpenai] at h
  repeat' split at h
  all_goals (injection h with h1 h2)
  all_goals (try (exact Except.noConfusion h1))
  all_goals (injection h1 with h3)
  all_goals (subst h3)
  all_goals
    first
      | exact successShortDict_wf _ svc prompt
      | exact failDict_wf _ svc prompt (by decide)
      | exact failDict_wf _ svc prompt (append_ne_empty _ _ (by decide))
      | exact failDict_wf _ svc prompt
          (append_ne_empty _ _ (append_ne_empty _ _ (append_ne_empty _ _ (by decide))))

theorem translateWithMicrosoft_ok_wf (e : Env) (sess : Session) (t : Transport)
    (log : List PostReq) (text prompt svc : String) (timeout : Nat) :
    ∀ d log2, translateWithMicrosoft e sess t log text prompt svc timeout = (.ok d, log2) →
      WellFormedResult d := by
  intro d log2 h
  simp only [translateWithMicrosoft] at h
  repeat' split at h
  all_goals (injection h with h1 h2)
  all_goals (try (exact Except.noConfusion h1))
  all_goals (injection h1 with h3)
  all_goals (subst h3)
  all_goals
    first
      | exact msExtract_wf _ svc prompt _
      | exact failDict_wf _ svc prompt (by decide)
      | exact failDict_wf _ svc prompt (append_ne_empty _ _ (by decide))
      | exact failDict_wf _ svc prompt
          (append_ne_empty _ _ (append_ne_empty _ _ (append_ne_empty _ _ (by decide))))

theorem dispatchByService_ok_wf (e : Env) (sess : Session) (t : Transport)
    (log : List PostReq) (text cp svc : String) (timeout : Nat) (ep : String) :
    ∀ d log2, dispatchByService e sess t log text cp svc timeout ep = (.ok d, log2) →
      WellFormedResult d := by
  intro d log2 h
  unfold dispatchByService at h
  repeat' split at h
  · exact translateWithDeepseek_ok_wf e sess t log text cp svc timeout d log2 h
  · exact translateWithOpenai_ok_wf e sess t log text cp svc timeout d log2 h
  · exact translateWithMicrosoft_ok_wf e sess t log text cp svc timeout d log2 h
  · injection h with h1 h2
    injection h1 with h3
    subst h3
    exact failDict_wf _ svc ep (append_ne_empty _ _ (by decide))

theorem translateShortTextGo_wf (e : Env) (sess : Session) (t : Transport)
    (text prompt svc : String) :
    ∀ (k : Nat) (log : List PostReq),
      WellFormedResult (translateShortTextGo e sess t text prompt svc (k + 1) log).1 := by
  intro k
  induction k with
  | zero =>
    intro log
    rw [translateShortTextGo]
    rcases h : dispatchByService e sess t log text prompt svc timeout_short prompt with ⟨res, log2⟩
    rcases res with ex | d
    · rcases ex with _ | m
      · exact failDict_wf _ svc prompt (by decide)
      · exact failDict_wf _ svc prompt (append_ne_empty _ _ (by decide))
    · exact dispatchByService_ok_wf e sess t log text prompt svc timeout_short prompt d log2 h
  | succ j ih =>
    intro log
    rw [translateShortTextGo]
    rcases h : dispatchByService e sess t log text prompt svc timeout_short prompt with ⟨res, log2⟩
    rcases res with ex | d
    · rcases ex with _ | m
      · show WellFormedResult
          ((if 0 < j + 1 then translateShortTextGo e sess t text prompt svc (j + 1) log2
            else (failDict shortTimeoutMsg svc prompt, log2)).1)
        rw [if_pos (Nat.succ_pos j)]
        exact ih log2
      · exact failDict_wf _ svc prompt (append_ne_empty _ _ (by decide))
    · exact dispatchByService_ok_wf e sess t log text prompt svc timeout_short prompt d log2 h

theorem translateLongLoop_wf (e : Env) (sess : Session) (t : Transport)
    (prompt svc : String) (total : Nat) :
    ∀ (chs : List String) (i : Nat) (translated : List PyVal) (log : List PostReq)
      (d : Dict) (log2 : List PostReq),
      translateLongLoop e sess t prompt svc total chs i translated log = (.ok d, log2) →
      WellFormedResult d := by
  intro chs
  induction chs with
  | nil =>
    intro i translated log d log2 h
    simp only [translateLongLoop] at h
    split at h
    · injection h with h1 h2
      injection h1 with h3
      subst h3
      exact successLongDict_wf _ svc prompt total
    · injection h with h1 h2
      exact Except.noConfusion h1
  | cons ch rest ih =>
    intro i translated log d log2 h
    simp only [translateLongLoop] at h
    repeat' split at h
    all_goals
      first
        | exact ih (i + 1) _ _ d log2 h
        | (injection h with h1 h2
           injection h1 with h3
           subst h3
           first
             | exact dispatchByService_ok_wf e sess t log ch _ svc timeout_long prompt _ _
                 (by assumption)
             | exact failDict_wf _ svc prompt
                 (append_ne_empty _ _ (append_ne_empty _ _ (by decide)))
             | exact failDict_wf _ svc prompt
                 (append_ne_empty _ _ (append_ne_empty _ _ (append_ne_empty _ _ (by decide)))))

theorem translate_long_text_wf (e : Env) (sess : Session) (t : Transport)
    (log : List PostReq) (text prompt svc : String) :
    ∀ d log2, translate_long_text e sess t log text prompt svc = (.ok d, log2) →
      WellFormedResult d := by
  intro d log2 h
  simp only [translate_long_text] at h
  split at h
  · injection h with h1 h2
    injection h1 with h3
    subst h3
    exact translateShortTextGo_wf e sess t text prompt svc 2 log
  · exact translateLongLoop_wf e sess t prompt svc _ _ 1 [] log d log2 h

theorem translate_body_ok_wf (e : Env) (sess : Session) (t : Transport)
    (text prompt svc : String) :
    ∀ d log2, translate_body e sess t text prompt svc = (.ok d, log2) →
      WellFormedResult d := by
  intro d log2 h
  simp only [translate_body] at h
  split at h
  · exact translate_long_text_wf e sess t [] text prompt svc d log2 h
  · injection h with h1 h2
    injection h1 with h3
    subst h3
    exact translateShortTextGo_wf e sess t text prompt svc 2 []

theorem translate_wrap_wf (e : Env) (sess : Session) (t : Transport)
    (text prompt svc : String) :
    WellFormedResult ((match translate_body e sess t text prompt svc with
      | (.ok d, log) => (d, log)
      | (.error ex, log) =>
        (failDict ("Translation error: " ++ pyExnMsg ex) svc prompt, log)).1) := by
  rcases hb : translate_body e sess t text prompt svc with ⟨res, log⟩
  rcases res with ex | d
  · exact failDict_wf _ svc prompt (append_ne_empty _ _ (by decide))
  · exact translate_body_ok_wf e sess t text prompt svc d log hb

/-- Master invariant: every result of `translate_text` is well formed, for
every environment, session, transport and input. -/
theorem translate_text_wf (e : Env) (sess : Session) (t : Transport)
    (text prompt : String) (svcOpt : Option String) :
    WellFormedResult (translate_text e sess t text prompt svcOpt).1 := by
  simp only [translate_text]
  split
  · exact failDict_wf _ _ _ (by decide)
  · split
    · exact failDict_wf _ _ _ (by decide)
    · split
      · exact failDict_wf _ _ _ (append_ne_empty _ _ (append_ne_empty _ _ (by decide)))
      · exact translate_wrap_wf e sess t text prompt _

/-! ## C3: result dichotomy -/

/-- A transport that answers every chat call with HTTP 200 and an empty
completion content. -/
def tEmptyContent : Transport := fun _ _ =>
  .resp 200
    (some (.jobj [("choices", .jarr [.jobj [("message", .jobj [("content", .jstr "")])]])]))
    ""

/-- C3 counterexample: the claim that a successful result always has
non-empty translated text is false — when the provider answers 200 with an
empty completion content, `translate_text` returns `error = None` together
with an empty `translated_text`. -/
theorem result_dichotomy_counterexample :
    alGet (translate_text ⟨"dk", "ok2", "mk", "r"⟩ [] tEmptyContent
        "hi" "translate" (some "deepseek")).1 "error" = some PyVal.vnone ∧
    alGet (translate_text ⟨"dk", "ok2", "mk", "r"⟩ [] tEmptyContent
        "hi" "translate" (some "deepseek")).1 "translated_text" = some (PyVal.vstr "") := by
  constructor <;> rfl

/-- C3 amended: every result of `translate_text` is either fully failed —
`error` a non-empty string and `translated_text` the empty string — or
successful with `error = None` and the `translated_text` key present; a
result never carries both an error and non-empty translated text.  A
successful result's `translated_text` is not always a non-empty string: it
may be empty (provider answers 200 with blank content), and on the
Microsoft success path it is the deserialized `text` value verbatim, which
need not be a string at all. -/
theorem result_dichotomy (e : Env) (sess : Session) (t : Transport)
    (text prompt : String) (svcOpt : Option String) :
    (∃ m, m ≠ "" ∧
       alGet (translate_text e sess t text prompt svcOpt).1 "error" = some (PyVal.vstr m) ∧
       alGet (translate_text e sess t text prompt svcOpt).1 "translated_text"
         = some (PyVal.vstr "")) ∨
    (alGet (translate_text e sess t text prompt svcOpt).1 "error" = some PyVal.vnone ∧
     (alGet (translate_text e sess t text prompt svcOpt).1 "translated_text").isSome) :=
  (translate_text_wf e sess t text prompt svcOpt).1

/-! ## C10: the result dictionary always carries the four keys -/

/-- C10: for every environment, session, transport, text, prompt and service
name, the dictionary returned by `translate_text` contains the keys `error`,
`translated_text`, `service_used` and `prompt_used` (and, the embedding being
total over all transport behaviours, the call never raises: every internal
exception is converted into a failed result dictionary). -/
theorem result_keys_total (e : Env) (sess : Session) (t : Transport)
    (text prompt : String) (svcOpt : Option String) :
    (alGet (translate_text e sess t text prompt svcOpt).1 "error").isSome ∧
    (alGet (translate_text e sess t text prompt svcOpt).1 "translated_text").isSome ∧
    (alGet (translate_text e sess t text prompt svcOpt).1 "service_used").isSome ∧
    (alGet (translate_text e sess t text prompt svcOpt).1 "prompt_used").isSome := by
  obtain ⟨hd, hs, hp⟩ := translate_text_wf e sess t text prompt svcOpt
  refine ⟨?_, ?_, hs, hp⟩
  · rcases hd with ⟨m, -, he, -⟩ | ⟨he, -⟩ <;> simp [he]
  · rcases hd with ⟨m, -, -, ht⟩ | ⟨-, ht⟩
    · simp [ht]
    · exact ht

/-! ## Symbolic unfolding of single adapter calls

With an empty session and a well-formed baseline key, one DeepSeek or
Microsoft adapter call reduces to a case analysis on the transport outcome;
these lemmas expose that shape for the retry/abort theorems. -/

/-- The POST issued by one DeepSeek call. -/
def deepseekReq (text prompt : String) (timeout : Nat) : PostReq :=
  ⟨"https://api.deepseek.com/v1/chat/completions",
   chatPayload "deepseek-chat"
     (prompt ++ "\n\nText to translate:\n```" ++ text ++ "```")
     (min (max (text.length * 2) 2000) 8000), timeout⟩

theorem deepseek_call_unfold (e : Env) (t : Transport) (log : List PostReq)
    (text prompt : String) (timeout : Nat)
    (hk1 : e.deepseekKey ≠ "") (hk2 : e.deepseekKey ≠ apiKeyPlaceholder) :
    translateWithDeepseek e [] t log text prompt "deepseek" timeout
      = (match t log.length (deepseekReq text prompt timeout) with
         | .timeout => (.error .timeoutE, log ++ [deepseekReq text prompt timeout])
         | .netErr m => (.error (.otherE m), log ++ [deepseekReq text prompt timeout])
         | .resp status body rawText =>
           if status = 200 then
             match chatExtract body with
             | .ok tt => (.ok (successShortDict tt "deepseek" prompt),
                          log ++ [deepseekReq text prompt timeout])
             | .error ex => (.error ex, log ++ [deepseekReq text prompt timeout])
           else
             match parseErrMsg body with
             | some msg =>
               if strContains msg "Authentication Fails" then
                 (.ok (failDict "API密钥无效或已过期。请检查您的DeepSeek API密钥是否正确，并确保有足够的余额。" "deepseek" prompt),
                  log ++ [deepseekReq text prompt timeout])
               else
                 (.ok (failDict ("DeepSeek API错误: " ++ msg) "deepseek" prompt),
                  log ++ [deepseekReq text prompt timeout])
             | none =>
               (.ok (failDict ("DeepSeek API错误: " ++ toString status ++ " - " ++ rawText) "deepseek" prompt),
                log ++ [deepseekReq text prompt timeout])) := by
  simp only [translateWithDeepseek]
  rw [show getStrD (get_service_config e [] "deepseek") "api_key" "" = e.deepseekKey from rfl]
  rw [if_neg (not_or.mpr ⟨hk1, hk2⟩)]
  rw [show dIndexStr (get_service_config e [] "deepseek") "model"
      = Except.ok "deepseek-chat" from rfl]
  rw [show dIndexStr (get_service_config e [] "deepseek") "api_url"
      = Except.ok "https://api.deepseek.com/v1/chat/completions" from rfl]
  rfl

/-- The POST issued by one Microsoft call. -/
def microsoftReq (text prompt : String) (timeout : Nat) : PostReq :=
  ⟨"https://api.cognitive.microsofttranslator.com" ++ "/translate?api-version=3.0"
     ++ "&to=" ++ extractTargetLanguageFromPrompt prompt,
   .jarr [.jobj [("text", .jstr text)]], timeout⟩

theorem microsoft_call_unfold (e : Env) (t : Transport) (log : List PostReq)
    (text prompt : String) (timeout : Nat)
    (hk1 : e.microsoftKey ≠ "") (hk2 : e.microsoftKey ≠ apiKeyPlaceholder) :
    translateWithMicrosoft e [] t log text prompt "microsoft" timeout
      = (match t log.length (microsoftReq text prompt timeout) with
         | .timeout => (.ok (failDict msTimeoutMsg "microsoft" prompt),
                        log ++ [microsoftReq text prompt timeout])
         | .netErr m => (.ok (failDict (msFailPrefix ++ m) "microsoft" prompt),
                         log ++ [microsoftReq text prompt timeout])
         | .resp status body rawText =>
           if status = 200 then
             (.ok (msExtract body "microsoft" prompt (extractTargetLanguageFromPrompt prompt)),
              log ++ [microsoftReq text prompt timeout])
           else
             match parseErrMsg body with
             | some msg =>
               (.ok (failDict ("Microsoft Translator API错误: " ++ msg) "microsoft" prompt),
                log ++ [microsoftReq text prompt timeout])
             | none =>
               (.ok (failDict ("Microsoft Translator API错误: " ++ toString status ++ " - " ++ rawText) "microsoft" prompt),
                log ++ [microsoftReq text prompt timeout])) := by
  simp only [translateWithMicrosoft]
  rw [show getStrD (get_service_config e [] "microsoft") "api_key" "" = e.microsoftKey from rfl]
  rw [if_neg (not_or.mpr ⟨hk1, hk2⟩)]
  rw [show dIndexStr (get_service_config e [] "microsoft") "api_url"
      = Except.ok "https://api.cognitive.microsofttranslator.com" from rfl]
  rfl

theorem dispatch_deepseek (e : Env) (sess : Session) (t : Transport) (log : List PostReq)
    (text cp : String) (timeout : Nat) (ep : String) :
    dispatchByService e sess t log text cp "deepseek" timeout ep
      = translateWithDeepseek e sess t log text cp "deepseek" timeout := rfl

theorem dispatch_microsoft (e : Env) (sess : Session) (t : Transport) (log : List PostReq)
    (text cp : String) (timeout : Nat) (ep : String) :
    dispatchByService e sess t log text cp "microsoft" timeout ep
      = translateWithMicrosoft e sess t log text cp "microsoft" timeout := rfl

/-! ## C1: the retry policy -/

theorem translate_text_path (e : Env) (t : Transport) (text prompt svc : String)
    (htext : pyStrip text ≠ "") (hprompt : pyStrip prompt ≠ "")
    (hsvc : svc ≠ "") (hav : is_service_available e [] svc = true) :
    translate_text e [] t text prompt (some svc)
      = match translate_body e [] t text prompt svc with
        | (.ok d, log) => (d, log)
        | (.error ex, log) =>
          (failDict ("Translation error: " ++ pyExnMsg ex) svc prompt, log) := by
  simp only [translate_text]
  rw [if_neg htext, if_neg hprompt, if_neg hsvc]
  rw [if_neg (by simp [hav])]

theorem translate_text_short_path (e : Env) (t : Transport) (text prompt svc : String)
    (htext : pyStrip text ≠ "") (hprompt : pyStrip prompt ≠ "")
    (hsvc : svc ≠ "") (hav : is_service_available e [] svc = true)
    (hshort : text.length ≤ max_chunk_size) :
    translate_text e [] t text prompt (some svc)
      = translate_short_text e [] t [] text prompt svc := by
  rw [translate_text_path e t text prompt svc htext hprompt hsvc hav]
  simp only [translate_body]
  rw [if_neg (by omega)]

theorem translate_text_long_path (e : Env) (t : Transport) (text prompt svc : String)
    (htext : pyStrip text ≠ "") (hprompt : pyStrip prompt ≠ "")
    (hsvc : svc ≠ "") (hav : is_service_available e [] svc = true)
    (hlong : max_chunk_size < text.length) :
    translate_text e [] t text prompt (some svc)
      = match translate_long_text e [] t [] text prompt svc with
        | (.ok d, log) => (d, log)
        | (.error ex, log) =>
          (failDict ("Translation error: " ++ pyExnMsg ex) svc prompt, log) := by
  rw [translate_text_path e t text prompt svc htext hprompt hsvc hav]
  simp only [translate_body]
  rw [if_pos hlong]

theorem avail_deepseek (e : Env) :
    is_service_available e [] "deepseek" = (e.deepseekKey != "") := rfl

theorem avail_microsoft (e : Env) :
    is_service_available e [] "microsoft" = (e.microsoftKey != "") := rfl

theorem go_deepseek_timeout (e : Env) (t : Transport) (text prompt : String)
    (hk1 : e.deepseekKey ≠ "") (hk2 : e.deepseekKey ≠ apiKeyPlaceholder)
    (ht : ∀ n req, t n req = PostResult.timeout) :
    ∀ (k : Nat) (log : List PostReq),
      translateShortTextGo e [] t text prompt "deepseek" (k + 1) log
        = (failDict shortTimeoutMsg "deepseek" prompt,
           log ++ List.replicate (k + 1) (deepseekReq text prompt timeout_short)) := by
  intro k
  induction k with
  | zero =>
    intro log
    rw [translateShortTextGo, dispatch_deepseek,
        deepseek_call_unfold e t log text prompt timeout_short hk1 hk2, ht]
    rfl
  | succ j ih =>
    intro log
    rw [translateShortTextGo, dispatch_deepseek,
        deepseek_call_unfold e t log text prompt timeout_short hk1 hk2, ht]
    show (if 0 < j + 1 then
            translateShortTextGo e [] t text prompt "deepseek" (j + 1)
              (log ++ [deepseekReq text prompt timeout_short])
          else (failDict shortTimeoutMsg "deepseek" prompt,
                log ++ [deepseekReq text prompt timeout_short])) = _
    rw [if_pos (Nat.succ_pos j), ih]
    simp [List.replicate_succ]

theorem go_microsoft_timeout (e : Env) (t : Transport) (text prompt : String)
    (hm1 : e.microsoftKey ≠ "") (hm2 : e.microsoftKey ≠ apiKeyPlaceholder)
    (ht : ∀ n req, t n req = PostResult.timeout) (k : Nat) (log : List PostReq) :
    translateShortTextGo e [] t text prompt "microsoft" (k + 1) log
      = (failDict msTimeoutMsg "microsoft" prompt,
         log ++ [microsoftReq text prompt timeout_short]) := by
  rw [translateShortTextGo, dispatch_microsoft,
      microsoft_call_unfold e t log text prompt timeout_short hm1 hm2, ht]

theorem go_deepseek_neterr (e : Env) (t : Transport) (text prompt m : String)
    (hk1 : e.deepseekKey ≠ "") (hk2 : e.deepseekKey ≠ apiKeyPlaceholder)
    (ht : ∀ n req, t n req = PostResult.netErr m) (k : Nat) (log : List PostReq) :
    translateShortTextGo e [] t text prompt "deepseek" (k + 1) log
      = (failDict ("Translation failed: " ++ m) "deepseek" prompt,
         log ++ [deepseekReq text prompt timeout_short]) := by
  rw [translateShortTextGo, dispatch_deepseek,
      deepseek_call_unfold e t log text prompt timeout_short hk1 hk2, ht]

theorem longLoop_timeout_head (e : Env) (t : Transport) (prompt : String) (total : Nat)
    (hk1 : e.deepseekKey ≠ "") (hk2 : e.deepseekKey ≠ apiKeyPlaceholder)
    (ht : ∀ n req, t n req = PostResult.timeout)
    (ch : String) (rest : List String) (i : Nat) (translated : List PyVal)
    (log : List PostReq) :
    translateLongLoop e [] t prompt "deepseek" total (ch :: rest) i translated log
      = (.ok (failDict ("Translation timeout on part " ++ toString i ++ ". Please try again later or reduce text length.") "deepseek" prompt),
         log ++ [deepseekReq ch
           (prompt ++ "\n\n(Part " ++ toString i ++ "/" ++ toString total ++ ")") timeout_long]) := by
  simp only [translateLongLoop]
  rw [dispatch_deepseek, deepseek_call_unfold e t log ch _ timeout_long hk1 hk2, ht]

theorem splitText_long_of_many (s : String) (h : 2 ≤ (splitText s).length) :
    max_chunk_size < s.length := by
  by_contra hc
  push_neg at hc
  rw [splitText_whole_of_le s hc] at h
  simp at h

theorem translate_long_first_timeout (e : Env) (t : Transport) (text prompt : String)
    (hk1 : e.deepseekKey ≠ "") (hk2 : e.deepseekKey ≠ apiKeyPlaceholder)
    (ht : ∀ n req, t n req = PostResult.timeout)
    (hchunks : 2 ≤ (splitText text).length) :
    ∃ req, translate_long_text e [] t [] text prompt "deepseek"
      = (.ok (failDict "Translation timeout on part 1. Please try again later or reduce text length." "deepseek" prompt),
         [req]) := by
  simp only [translate_long_text]
  rw [if_neg (by omega)]
  rcases hsp : splitText text with _ | ⟨c1, rest⟩
  · rw [hsp] at hchunks; simp at hchunks
  · refine ⟨deepseekReq c1
        (prompt ++ "\n\n(Part " ++ toString 1 ++ "/" ++ toString (c1 :: rest).length ++ ")")
        timeout_long, ?_⟩
    exact longLoop_timeout_head e t prompt _ hk1 hk2 ht c1 rest 1 [] []

/-- C1 amended: the 3-attempt / 2-second retry policy applies only to the
single-call path of the chat-style adapters.  With a transport that times out
on every call: a short-text DeepSeek request makes exactly 3 attempts and
returns the timeout failure with empty translated text; a chunked DeepSeek
request aborts after 1 attempt on part 1 without retrying; a short-text
Microsoft request returns the Microsoft timeout failure after exactly 1
attempt, because that adapter catches the timeout itself; and any non-timeout
failure aborts the single-call path immediately after 1 attempt. -/
theorem retry_policy_amended (e : Env) (t : Transport) (text prompt : String)
    (hk1 : e.deepseekKey ≠ "") (hk2 : e.deepseekKey ≠ apiKeyPlaceholder)
    (hm1 : e.microsoftKey ≠ "") (hm2 : e.microsoftKey ≠ apiKeyPlaceholder)
    (htext : pyStrip text ≠ "") (hprompt : pyStrip prompt ≠ "")
    (hshort : text.length ≤ max_chunk_size)
    (ht : ∀ n req, t n req = PostResult.timeout) :
    max_retries = 3 ∧ retry_delay = 2 ∧
    (translate_text e [] t text prompt (some "deepseek")).1
      = failDict shortTimeoutMsg "deepseek" prompt ∧
    (translate_text e [] t text prompt (some "deepseek")).2.length = 3 ∧
    (translate_text e [] t text prompt (some "microsoft")).1
      = failDict msTimeoutMsg "microsoft" prompt ∧
    (translate_text e [] t text prompt (some "microsoft")).2.length = 1 ∧
    (∀ text2, pyStrip text2 ≠ "" → 2 ≤ (splitText text2).length →
      (translate_text e [] t text2 prompt (some "deepseek")).1
        = failDict "Translation timeout on part 1. Please try again later or reduce text length." "deepseek" prompt ∧
      (translate_text e [] t text2 prompt (some "deepseek")).2.length = 1) ∧
    (∀ (t2 : Transport) (m : String), (∀ n req, t2 n req = PostResult.netErr m) →
      (translate_text e [] t2 text prompt (some "deepseek")).1
        = failDict ("Translation failed: " ++ m) "deepseek" prompt ∧
      (translate_text e [] t2 text prompt (some "deepseek")).2.length = 1) := by
  have hds : translate_text e [] t text prompt (some "deepseek")
      = translate_short_text e [] t [] text prompt "deepseek" :=
    translate_text_short_path e t text prompt "deepseek" htext hprompt (by decide)
      (by rw [avail_deepseek]; simp [hk1]) hshort
  have hms : translate_text e [] t text prompt (some "microsoft")
      = translate_short_text e [] t [] text prompt "microsoft" :=
    translate_text_short_path e t text prompt "microsoft" htext hprompt (by decide)
      (by rw [avail_microsoft]; simp [hm1]) hshort
  refine ⟨rfl, rfl, ?_, ?_, ?_, ?_, ?_, ?_⟩
  · rw [hds]
    show (translateShortTextGo e [] t text prompt "deepseek" (2 + 1) []).1 = _
    rw [go_deepseek_timeout e t text prompt hk1 hk2 ht 2 []]
  · rw [hds]
    show (translateShortTextGo e [] t text prompt "deepseek" (2 + 1) []).2.length = 3
    rw [go_deepseek_timeout e t text prompt hk1 hk2 ht 2 []]
    simp
  · rw [hms]
    show (translateShortTextGo e [] t text prompt "microsoft" (2 + 1) []).1 = _
    rw [go_microsoft_timeout e t text prompt hm1 hm2 ht 2 []]
  · rw [hms]
    show (translateShortTextGo e [] t text prompt "microsoft" (2 + 1) []).2.length = 1
    rw [go_microsoft_timeout e t text prompt hm1 hm2 ht 2 []]
    simp
  · intro text2 htext2 hchunks
    rw [translate_text_long_path e t text2 prompt "deepseek" htext2 hprompt (by decide)
        (by rw [avail_deepseek]; simp [hk1]) (splitText_long_of_many text2 hchunks)]
    obtain ⟨req, hlt⟩ := translate_long_first_timeout e t text2 prompt hk1 hk2 ht hchunks
    rw [hlt]
    exact ⟨rfl, rfl⟩
  · intro t2 m ht2
    have hds2 : translate_text e [] t2 text prompt (some "deepseek")
        = translate_short_text e [] t2 [] text prompt "deepseek" :=
      translate_text_short_path e t2 text prompt "deepseek" htext hprompt (by decide)
        (by rw [avail_deepseek]; simp [hk1]) hshort
    rw [hds2]
    constructor
    · show (translateShortTextGo e [] t2 text prompt "deepseek" (2 + 1) []).1 = _
      rw [go_deepseek_neterr e t2 text prompt m hk1 hk2 ht2 2 []]
    · show (translateShortTextGo e [] t2 text prompt "deepseek" (2 + 1) []).2.length = 1
      rw [go_deepseek_neterr e t2 text prompt m hk1 hk2 ht2 2 []]
      simp

/-- A fixed environment with every provider key configured. -/
def envC1 : Env := ⟨"dk", "ok2", "mk", "r"⟩

/-- A transport that times out on every call. -/
def tTimeoutAll : Transport := fun _ _ => PostResult.timeout

/-- A transport that fails every call with a non-timeout network error. -/
def tNetErrAll : Transport := fun _ _ => PostResult.netErr "boom"

/-- A 1501-character sentence: 1500 `'a'`s and a `'.'`. -/
def sent1501 : List Char := List.replicate 1500 'a' ++ ['.']

/-- A 3002-character text that the splitter cuts into exactly two chunks. -/
def twoChunkText : String := String.mk ((List.replicate 2 sent1501).flatten)

theorem sent1501_length : sent1501.length = 1501 := by
  rw [sent1501, List.length_append, List.length_replicate]
  rfl

theorem twoChunkText_length : twoChunkText.length = 3002 := by
  show ((List.replicate 2 sent1501).flatten).length = 3002
  rw [List.length_flatten, List.map_replicate, sent1501_length, List.sum_replicate,
      smul_eq_mul]

theorem splitText_twoChunk : splitText twoChunkText = List.replicate 2 (String.mk sent1501) := by
  unfold splitText
  rw [if_neg (by rw [twoChunkText_length]; norm_num [max_chunk_size])]
  show (if (sentenceChunks ((List.replicate 2 sent1501).flatten)).length > 10
        then forcedChunks ((List.replicate 2 sent1501).flatten)
        else sentenceChunks ((List.replicate 2 sent1501).flatten)).map String.mk = _
  rw [show sentenceChunks ((List.replicate 2 sent1501).flatten) = List.replicate 2 sent1501 from
      sentenceChunks_periodic 1499 1 (by norm_num) (by norm_num)]
  rw [List.length_replicate]
  rw [if_neg (by norm_num)]
  rw [List.map_replicate]

theorem flatten2_no_ws : ∀ c ∈ (List.replicate 2 sent1501).flatten, isPyWs c = false := by
  intro c hc
  rcases List.mem_flatten.mp hc with ⟨l, hl, hcl⟩
  rw [(List.mem_replicate.mp hl).2] at hcl
  exact sentChunk_no_ws 1499 c hcl

theorem pyStrip_twoChunkText : pyStrip twoChunkText ≠ "" := by
  show String.mk (pyStripL ((List.replicate 2 sent1501).flatten)) ≠ ""
  rw [pyStripL_eq_self _ flatten2_no_ws]
  intro hc
  have hd : (List.replicate 2 sent1501).flatten = [] := congrArg String.data hc
  have hlen := congrArg List.length hd
  rw [show ((List.replicate 2 sent1501).flatten).length = 3002 from twoChunkText_length] at hlen
  simp at hlen

/-- Witness for the amended C1 at a concrete environment, transport and
inputs (short text `"hi"`, and the two-chunk text for the chunked conjunct). -/
theorem retry_policy_amended_witness :
    (translate_text envC1 [] tTimeoutAll "hi" "translate" (some "deepseek")).1
      = failDict shortTimeoutMsg "deepseek" "translate" ∧
    (translate_text envC1 [] tTimeoutAll "hi" "translate" (some "deepseek")).2.length = 3 ∧
    (translate_text envC1 [] tTimeoutAll "hi" "translate" (some "microsoft")).1
      = failDict msTimeoutMsg "microsoft" "translate" ∧
    (translate_text envC1 [] tTimeoutAll "hi" "translate" (some "microsoft")).2.length = 1 ∧
    (translate_text envC1 [] tTimeoutAll twoChunkText "translate" (some "deepseek")).1
      = failDict "Translation timeout on part 1. Please try again later or reduce text length." "deepseek" "translate" ∧
    (translate_text envC1 [] tTimeoutAll twoChunkText "translate" (some "deepseek")).2.length = 1 ∧
    (translate_text envC1 [] tNetErrAll "hi" "translate" (some "deepseek")).1
      = failDict ("Translation failed: " ++ "boom") "deepseek" "translate" ∧
    (translate_text envC1 [] tNetErrAll "hi" "translate" (some "deepseek")).2.length = 1 := by
  have H := retry_policy_amended envC1 tTimeoutAll "hi" "translate"
    (by decide) (by decide) (by decide) (by decide) (by decide) (by decide) (by decide)
    (fun _ _ => rfl)
  have Hb := H.2.2.2.2.2.2.1 twoChunkText pyStrip_twoChunkText
    (by rw [splitText_twoChunk, List.length_replicate])
  have Hd := H.2.2.2.2.2.2.2 tNetErrAll "boom" (fun _ _ => rfl)
  exact ⟨H.2.2.1, H.2.2.2.1, H.2.2.2.2.1, H.2.2.2.2.2.1, Hb.1, Hb.2, Hd.1, Hd.2⟩

/-- C1 counterexample: a timeout-classified transport failure on a Microsoft
single call is not retried — with an always-timing-out transport the request
makes exactly 1 attempt (not 3) and returns the Microsoft timeout failure. -/
theorem retry_policy_counterexample :
    (translate_text ⟨"dk", "ok2", "mk", "r"⟩ [] (fun _ _ => PostResult.timeout)
        "hello" "translate" (some "microsoft")).2.length = 1 ∧
    alGet (translate_text ⟨"dk", "ok2", "mk", "r"⟩ [] (fun _ _ => PostResult.timeout)
        "hello" "translate" (some "microsoft")).1 "error" = some (PyVal.vstr msTimeoutMsg) := by
  constructor <;> rfl

/-! ## C5: a chunk failure aborts the whole request -/

/-- A chat-completion response body whose first choice's message content is
`c`. -/
def chatOkBody (c : String) : Json :=
  .jobj [("choices", .jarr [.jobj [("message", .jobj [("content", .jstr c)])]])]

theorem deepseek_call_ok (e : Env) (t : Transport) (log : List PostReq)
    (text prompt : String) (timeout : Nat) (c : String)
    (hk1 : e.deepseekKey ≠ "") (hk2 : e.deepseekKey ≠ apiKeyPlaceholder)
    (hresp : t log.length (deepseekReq text prompt timeout)
      = PostResult.resp 200 (some (chatOkBody c)) "") :
    translateWithDeepseek e [] t log text prompt "deepseek" timeout
      = (.ok (successShortDict (pyStrip c) "deepseek" prompt),
         log ++ [deepseekReq text prompt timeout]) := by
  rw [deepseek_call_unfold e t log text prompt timeout hk1 hk2, hresp]
  rfl

theorem deepseek_call_neterr (e : Env) (t : Transport) (log : List PostReq)
    (text prompt : String) (timeout : Nat) (m : String)
    (hk1 : e.deepseekKey ≠ "") (hk2 : e.deepseekKey ≠ apiKeyPlaceholder)
    (hresp : t log.length (deepseekReq text prompt timeout) = PostResult.netErr m) :
    translateWithDeepseek e [] t log text prompt "deepseek" timeout
      = (.error (.otherE m), log ++ [deepseekReq text prompt timeout]) := by
  rw [deepseek_call_unfold e t log text prompt timeout hk1 hk2, hresp]

/-- C5: in chunked translation a failing chunk aborts the whole request.
With a 3-chunk split whose first call succeeds and whose second call fails
with a non-timeout network error, the dispatcher returns the per-part failure
with empty translated text (the already-translated first chunk is discarded)
after exactly 2 POSTs — the transport is never invoked for chunk 3. -/
theorem chunk_failure_aborts (e : Env) (t : Transport) (text prompt : String)
    (c1body m : String)
    (hk1 : e.deepseekKey ≠ "") (hk2 : e.deepseekKey ≠ apiKeyPlaceholder)
    (htext : pyStrip text ≠ "") (hprompt : pyStrip prompt ≠ "")
    (hchunks : (splitText text).length = 3)
    (h0 : ∀ req, t 0 req = PostResult.resp 200 (some (chatOkBody c1body)) "")
    (h1 : ∀ req, t 1 req = PostResult.netErr m) :
    (translate_text e [] t text prompt (some "deepseek")).1
      = failDict ("Translation failed on part 2: " ++ m) "deepseek" prompt ∧
    (translate_text e [] t text prompt (some "deepseek")).2.length = 2 := by
  have hlt : ∃ log2, translate_long_text e [] t [] text prompt "deepseek"
      = (.ok (failDict ("Translation failed on part 2: " ++ m) "deepseek" prompt), log2)
      ∧ log2.length = 2 := by
    simp only [translate_long_text]
    rw [if_neg (by omega)]
    obtain ⟨a, b, c, habc⟩ := List.length_eq_three.mp hchunks
    rw [habc]
    refine ⟨[deepseekReq a
          (prompt ++ "\n\n(Part " ++ toString 1 ++ "/" ++ toString 3 ++ ")") timeout_long,
        deepseekReq b
          (prompt ++ "\n\n(Part " ++ toString 2 ++ "/" ++ toString 3 ++ ")") timeout_long],
      ?_, rfl⟩
    show translateLongLoop e [] t prompt "deepseek" 3 [a, b, c] 1 [] [] = _
    simp only [translateLongLoop]
    rw [dispatch_deepseek,
        deepseek_call_ok e t [] a _ timeout_long c1body hk1 hk2 (h0 _)]
    show translateLongLoop e [] t prompt "deepseek" 3 [b, c] 2
        ([] ++ [PyVal.vstr (pyStrip c1body)])
        ([] ++ [deepseekReq a (prompt ++ "\n\n(Part " ++ toString 1 ++ "/" ++ toString 3 ++ ")") timeout_long]) = _
    simp only [translateLongLoop]
    rw [dispatch_deepseek,
        deepseek_call_neterr e t _ b _ timeout_long m hk1 hk2 (by exact h1 _)]
    rfl
  rw [translate_text_long_path e t text prompt "deepseek" htext hprompt (by decide)
      (by rw [avail_deepseek]; simp [hk1]) (splitText_long_of_many text (by omega))]
  obtain ⟨log2, heq, hlen⟩ := hlt
  rw [heq]
  exact ⟨rfl, hlen⟩

/-- A 4503-character text that the splitter cuts into exactly three chunks. -/
def threeChunkText : String := String.mk ((List.replicate 3 sent1501).flatten)

theorem threeChunkText_length : threeChunkText.length = 4503 := by
  show ((List.replicate 3 sent1501).flatten).length = 4503
  rw [List.length_flatten, List.map_replicate, sent1501_length, List.sum_replicate,
      smul_eq_mul]

theorem splitText_threeChunk :
    splitText threeChunkText = List.replicate 3 (String.mk sent1501) := by
  unfold splitText
  rw [if_neg (by rw [threeChunkText_length]; norm_num [max_chunk_size])]
  show (if (sentenceChunks ((List.replicate 3 sent1501).flatten)).length > 10
        then forcedChunks ((List.replicate 3 sent1501).flatten)
        else sentenceChunks ((List.replicate 3 sent1501).flatten)).map String.mk = _
  rw [show sentenceChunks ((List.replicate 3 sent1501).flatten) = List.replicate 3 sent1501 from
      sentenceChunks_periodic 1499 2 (by norm_num) (by norm_num)]
  rw [List.length_replicate]
  rw [if_neg (by norm_num)]
  rw [List.map_replicate]

theorem flatten3_no_ws : ∀ c ∈ (List.replicate 3 sent1501).flatten, isPyWs c = false := by
  intro c hc
  rcases List.mem_flatten.mp hc with ⟨l, hl, hcl⟩
  rw [(List.mem_replicate.mp hl).2] at hcl
  exact sentChunk_no_ws 1499 c hcl

theorem pyStrip_threeChunkText : pyStrip threeChunkText ≠ "" := by
  show String.mk (pyStripL ((List.replicate 3 sent1501).flatten)) ≠ ""
  rw [pyStripL_eq_self _ flatten3_no_ws]
  intro hc
  have hd : (List.replicate 3 sent1501).flatten = [] := congrArg String.data hc
  have hlen := congrArg List.length hd
  rw [show ((List.replicate 3 sent1501).flatten).length = 4503 from threeChunkText_length] at hlen
  simp at hlen

/-- A transport whose first call succeeds with content `"one"` and whose
later calls fail with `NetworkError`-style exceptions. -/
def tFailSecond : Transport := fun n _ =>
  if n = 0 then PostResult.resp 200 (some (chatOkBody "one")) "" else PostResult.netErr "boom"

/-- Witness for C5 at the concrete three-chunk text and failing transport. -/
theorem chunk_failure_aborts_witness :
    (splitText threeChunkText).length = 3 ∧
    (translate_text envC1 [] tFailSecond threeChunkText "translate" (some "deepseek")).1
      = failDict ("Translation failed on part 2: " ++ "boom") "deepseek" "translate" ∧
    (translate_text envC1 [] tFailSecond threeChunkText "translate" (some "deepseek")).2.length = 2 :=
  ⟨by rw [splitText_threeChunk, List.length_replicate],
   chunk_failure_aborts envC1 tFailSecond threeChunkText "translate" "one" "boom"
     (by decide) (by decide) pyStrip_threeChunkText (by decide)
     (by rw [splitText_threeChunk, List.length_replicate])
     (fun _ => rfl) (fun _ => rfl) |>.1,
   chunk_failure_aborts envC1 tFailSecond threeChunkText "translate" "one" "boom"
     (by decide) (by decide) pyStrip_threeChunkText (by decide)
     (by rw [splitText_threeChunk, List.length_replicate])
     (fun _ => rfl) (fun _ => rfl) |>.2⟩

/-! ## C6: the all-success chunked path -/

/-- The per-chunk translations accumulated by the loop when the `k`-th POST
(0-based) answers with content `c k`: the `j`-th element is the trimmed
content of call `k + j`. -/
def expectedTrans (c : Nat → String) : Nat → List String → List String
  | _, [] => []
  | k, _ :: rest => pyStrip (c k) :: expectedTrans c (k + 1) rest

/-- The POSTs issued by the loop: one DeepSeek request per chunk, in order,
carrying the per-chunk instruction `prompt ++ "\n\n(Part i/total)"` for the
1-based part number `i`. -/
def expectedReqs (prompt : String) (total : Nat) : Nat → List String → List PostReq
  | _, [] => []
  | i, ch :: rest =>
    deepseekReq ch (prompt ++ "\n\n(Part " ++ toString i ++ "/" ++ toString total ++ ")") timeout_long
      :: expectedReqs prompt total (i + 1) rest

theorem expectedTrans_get? (c : Nat → String) :
    ∀ (chs : List String) (k j : Nat),
      (expectedTrans c k chs)[j]? = (chs[j]?).map (fun _ => pyStrip (c (k + j))) := by
  intro chs
  induction chs with
  | nil => intro k j; simp [expectedTrans]
  | cons ch rest ih =>
    intro k j
    cases j with
    | zero => simp [expectedTrans]
    | succ j' =>
      simp only [expectedTrans, List.getElem?_cons_succ, ih (k + 1) j']
      rw [show k + 1 + j' = k + (j' + 1) by omega]

theorem expectedReqs_get? (prompt : String) (total : Nat) :
    ∀ (chs : List String) (i j : Nat),
      (expectedReqs prompt total i chs)[j]?
        = (chs[j]?).map (fun ch =>
            deepseekReq ch
              (prompt ++ "\n\n(Part " ++ toString (i + j) ++ "/" ++ toString total ++ ")")
              timeout_long) := by
  intro chs
  induction chs with
  | nil => intro i j; simp [expectedReqs]
  | cons ch rest ih =>
    intro i j
    cases j with
    | zero => simp [expectedReqs]
    | succ j' =>
      simp only [expectedReqs, List.getElem?_cons_succ, ih (i + 1) j']
      rw [show i + 1 + j' = i + (j' + 1) by omega]

theorem collectStrs_map_vstr : ∀ (ss : List String),
    collectStrs (ss.map PyVal.vstr) = some ss := by
  intro ss
  induction ss with
  | nil => rfl
  | cons s rest ih => simp [collectStrs, ih]

theorem longLoop_all_ok (e : Env) (t : Transport) (prompt : String) (total : Nat)
    (c : Nat → String)
    (hk1 : e.deepseekKey ≠ "") (hk2 : e.deepseekKey ≠ apiKeyPlaceholder)
    (hok : ∀ n req, t n req = PostResult.resp 200 (some (chatOkBody (c n))) "") :
    ∀ (chs : List String) (i : Nat) (ss : List String) (log : List PostReq),
      translateLongLoop e [] t prompt "deepseek" total chs i (ss.map PyVal.vstr) log
        = (.ok (successLongDict
             (String.intercalate "\n\n" (ss ++ expectedTrans c log.length chs))
             "deepseek" prompt total),
           log ++ expectedReqs prompt total i chs) := by
  intro chs
  induction chs with
  | nil =>
    intro i ss log
    simp only [translateLongLoop]
    rw [show joinChunks (ss.map PyVal.vstr) = some (String.intercalate "\n\n" ss) from by
        rw [joinChunks, collectStrs_map_vstr]; rfl]
    simp [expectedTrans, expectedReqs]
  | cons ch rest ih =>
    intro i ss log
    simp only [translateLongLoop]
    rw [dispatch_deepseek,
        deepseek_call_ok e t log ch _ timeout_long (c log.length) hk1 hk2 (hok log.length _)]
    show translateLongLoop e [] t prompt "deepseek" total rest (i + 1)
        (ss.map PyVal.vstr ++ [PyVal.vstr (pyStrip (c log.length))])
        (log ++ [deepseekReq ch
          (prompt ++ "\n\n(Part " ++ toString i ++ "/" ++ toString total ++ ")") timeout_long])
        = _
    rw [show ss.map PyVal.vstr ++ [PyVal.vstr (pyStrip (c log.length))]
        = (ss ++ [pyStrip (c log.length)]).map PyVal.vstr by simp]
    rw [ih]
    simp [expectedTrans, expectedReqs, List.length_append]

/-- C6: when every per-chunk DeepSeek call succeeds (the `n`-th POST answers
200 with content `c n`), the chunked path returns the trimmed per-chunk
translations joined with the blank-line separator `"\n\n"` in chunk order,
with `chunks_translated` set to the chunk count and `error = None`; the `j`-th
POST (0-based) is built from the `j`-th chunk, its instruction being the
original instruction suffixed with `"\n\n(Part i/total)"` for `i = 1 + j`. -/
theorem chunked_success_joins (e : Env) (t : Transport) (text prompt : String)
    (c : Nat → String)
    (hk1 : e.deepseekKey ≠ "") (hk2 : e.deepseekKey ≠ apiKeyPlaceholder)
    (htext : pyStrip text ≠ "") (hprompt : pyStrip prompt ≠ "")
    (hchunks : 2 ≤ (splitText text).length)
    (hok : ∀ n req, t n req = PostResult.resp 200 (some (chatOkBody (c n))) "") :
    translate_text e [] t text prompt (some "deepseek")
      = (successLongDict
           (String.intercalate "\n\n" (expectedTrans c 0 (splitText text)))
           "deepseek" prompt (splitText text).length,
         expectedReqs prompt (splitText text).length 1 (splitText text)) ∧
    (∀ (j : Nat), (expectedTrans c 0 (splitText text))[j]?
        = ((splitText text)[j]?).map (fun _ => pyStrip (c j))) ∧
    (∀ (j : Nat), (expectedReqs prompt (splitText text).length 1 (splitText text))[j]?
        = ((splitText text)[j]?).map (fun ch =>
            deepseekReq ch
              (prompt ++ "\n\n(Part " ++ toString (1 + j) ++ "/"
                 ++ toString (splitText text).length ++ ")")
              timeout_long)) := by
  refine ⟨?_, fun j => by simpa using expectedTrans_get? c (splitText text) 0 j,
          fun j => expectedReqs_get? prompt (splitText text).length (splitText text) 1 j⟩
  rw [translate_text_long_path e t text prompt "deepseek" htext hprompt (by decide)
      (by rw [avail_deepseek]; simp [hk1]) (splitText_long_of_many text hchunks)]
  have h := longLoop_all_ok e t prompt (splitText text).length c hk1 hk2 hok (splitText text) 1 [] []
  simp only [List.map_nil, List.length_nil, List.nil_append] at h
  simp only [translate_long_text]
  rw [if_neg (by omega), h]

/-- A transport answering every call `n` with 200 and content `"X" ++ n`. -/
def tEcho : Transport := fun n _ =>
  PostResult.resp 200 (some (chatOkBody ("X" ++ toString n))) ""

/-- Witness for C6 at the concrete two-chunk text and echoing transport. -/
theorem chunked_success_joins_witness :
    2 ≤ (splitText twoChunkText).length ∧
    (translate_text envC1 [] tEcho twoChunkText "translate" (some "deepseek")
      = (successLongDict
           (String.intercalate "\n\n"
             (expectedTrans (fun n => "X" ++ toString n) 0 (splitText twoChunkText)))
           "deepseek" "translate" (splitText twoChunkText).length,
         expectedReqs "translate" (splitText twoChunkText).length 1 (splitText twoChunkText)) ∧
     (∀ (j : Nat), (expectedTrans (fun n => "X" ++ toString n) 0 (splitText twoChunkText))[j]?
        = ((splitText twoChunkText)[j]?).map (fun _ => pyStrip ("X" ++ toString j))) ∧
     (∀ (j : Nat), (expectedReqs "translate" (splitText twoChunkText).length 1 (splitText twoChunkText))[j]?
        = ((splitText twoChunkText)[j]?).map (fun ch =>
            deepseekReq ch
              ("translate" ++ "\n\n(Part " ++ toString (1 + j) ++ "/"
                 ++ toString (splitText twoChunkText).length ++ ")")
              timeout_long))) :=
  ⟨by rw [splitText_twoChunk, List.length_replicate],
   chunked_success_joins envC1 tEcho twoChunkText "translate" (fun n => "X" ++ toString n)
     (by decide) (by decide) pyStrip_twoChunkText (by decide)
     (by rw [splitText_twoChunk, List.length_replicate])
     (fun _ _ => rfl)⟩

end TransSpec
